import Mathlib

/-!
Verification of the screen-to-world projection, valuation, hint-resolution and
interaction-state subsystem of the "two space needles" map exhibit
(`src/MapScene.jsx`, latest copy of the component).  Real-number arithmetic
stands in for JS doubles; JS `Math.round` is `round` (floor of `x + 1/2`).
-/

open Real

open scoped Classical

noncomputable section

/-- Degrees to radians, as in the source's `(deg * Math.PI) / 180`. -/
def degToRad (d : ℝ) : ℝ := d * π / 180

/-- A geographic coordinate, the `{lat, lng}` objects of the source. -/
structure LatLng where
  lat : ℝ
  lng : ℝ
deriving DecidableEq

/-- Camera pose read off the host map element: `center`, `heading`, `tilt`, `range`. -/
structure CameraPose where
  center : LatLng
  headingDeg : ℝ
  tiltDeg : ℝ
  rangeMeters : ℝ

/-- Viewport rectangle (the wrapper's bounding client rect), origin at its top-left. -/
structure Viewport where
  width : ℝ
  height : ℝ

/-- Source constant `POINTER_SENSITIVITY` (the "calibration hack", 1:1). -/
def POINTER_SENSITIVITY : ℝ := 1

/-- The computation `pixelToApproxLatLng` performs after its bounds guard passes
(the source's `let` chain from `metersPerPx` down to the returned lat/lng). -/
def pixelToApproxLatLngCore (pose : CameraPose) (rect : Viewport) (x y : ℝ) : LatLng :=
  let lat := pose.center.lat
  let metersPerPx := (pose.rangeMeters * 2.2) / min rect.width rect.height
  let dx := (x - rect.width / 2) * POINTER_SENSITIVITY
  let dy0 := (y - rect.height / 2) * POINTER_SENSITIVITY
  let tiltRad := degToRad pose.tiltDeg
  let yScale := 1 / max 0.25 (Real.cos tiltRad)
  let dy := dy0 * yScale
  let h := degToRad pose.headingDeg
  let eastM := (dx * Real.cos h - dy * Real.sin h) * metersPerPx
  let northM := (-dx * Real.sin h - dy * Real.cos h) * metersPerPx
  let latDelta := northM * 0.5 / 111320
  let lngDelta := eastM * 0.5 / (111320 * Real.cos (degToRad lat))
  ⟨lat + latDelta, pose.center.lng + lngDelta⟩

/-- Embedding of `pixelToApproxLatLng(mapEl, rect, clientX, clientY)`:
the approximate forward projector (screen pixel to lat/lng), with `x`/`y`
already rect-local (`clientX - rect.left`, `clientY - rect.top`).
Returns `none` when the pixel lies outside the viewport bounds. -/
def pixelToApproxLatLng (pose : CameraPose) (rect : Viewport) (x y : ℝ) : Option LatLng :=
  if x < 0 ∨ x > rect.width ∨ y < 0 ∨ y > rect.height then none
  else some (pixelToApproxLatLngCore pose rect x y)

/-- Embedding of `latLngToContainerPixel(mapEl, containerRect, latLng)`:
the approximate inverse projector (lat/lng to container pixel). -/
def latLngToContainerPixel (pose : CameraPose) (rect : Viewport) (p : LatLng) : ℝ × ℝ :=
  let lat := pose.center.lat
  let metersPerPx := (pose.rangeMeters * 2.2) / min rect.width rect.height
  let northM := (p.lat - pose.center.lat) * 111320 * 2
  let eastM := (p.lng - pose.center.lng) * (111320 * Real.cos (degToRad lat)) * 2
  let h := degToRad pose.headingDeg
  let dx := (eastM * Real.cos h - northM * Real.sin h) / metersPerPx
  let dy := (-eastM * Real.sin h - northM * Real.cos h) / metersPerPx
  let tiltRad := degToRad pose.tiltDeg
  let yScale := 1 / max 0.25 (Real.cos tiltRad)
  let dy2 := dy / yScale
  (rect.width / 2 + dx / POINTER_SENSITIVITY, rect.height / 2 + dy2 / POINTER_SENSITIVITY)

/-- The rotated local east-meter offset computed inside `pixelToApproxLatLng`
(the source's `eastM` intermediate). -/
def eastMetersAt (pose : CameraPose) (rect : Viewport) (x y : ℝ) : ℝ :=
  let metersPerPx := (pose.rangeMeters * 2.2) / min rect.width rect.height
  let dx := (x - rect.width / 2) * POINTER_SENSITIVITY
  let dy0 := (y - rect.height / 2) * POINTER_SENSITIVITY
  let yScale := 1 / max 0.25 (Real.cos (degToRad pose.tiltDeg))
  let dy := dy0 * yScale
  let h := degToRad pose.headingDeg
  (dx * Real.cos h - dy * Real.sin h) * metersPerPx

/-- The rotated local north-meter offset computed inside `pixelToApproxLatLng`
(the source's `northM` intermediate). -/
def northMetersAt (pose : CameraPose) (rect : Viewport) (x y : ℝ) : ℝ :=
  let metersPerPx := (pose.rangeMeters * 2.2) / min rect.width rect.height
  let dx := (x - rect.width / 2) * POINTER_SENSITIVITY
  let dy0 := (y - rect.height / 2) * POINTER_SENSITIVITY
  let yScale := 1 / max 0.25 (Real.cos (degToRad pose.tiltDeg))
  let dy := dy0 * yScale
  let h := degToRad pose.headingDeg
  (-dx * Real.sin h - dy * Real.cos h) * metersPerPx

end

noncomputable section

/-- The haversine quantity `x` computed inside `distanceMeters`. -/
def haversineX (a b : LatLng) : ℝ :=
  Real.sin (degToRad (b.lat - a.lat) / 2) ^ 2 +
    Real.cos (degToRad a.lat) * Real.cos (degToRad b.lat) *
      Real.sin (degToRad (b.lng - a.lng) / 2) ^ 2

/-- Embedding of `distanceMeters(a, b)`: haversine great-circle distance in meters,
`2 * R * asin(sqrt(x))` with `R = 6371000`. -/
def distanceMeters (a b : LatLng) : ℝ :=
  2 * 6371000 * Real.arcsin (Real.sqrt (haversineX a b))

end

/-- A named valuation zone from the source's `ZONES` table. -/
structure Zone where
  id : String
  name : String
  center : LatLng
  radiusM : ℝ
  ratePerSqFt : ℝ

instance : Inhabited Zone := ⟨⟨"", "", ⟨0, 0⟩, 0, 0⟩⟩

/-- The source's `ZONES` constant: Seattle neighborhood pricing zones. -/
noncomputable def ZONES : List Zone :=
  [⟨"downtown", "Downtown", ⟨47.6097, -122.3331⟩, 650, 2800⟩,
   ⟨"slu", "South Lake Union", ⟨47.6279, -122.3372⟩, 520, 2200⟩,
   ⟨"belltown", "Belltown", ⟨47.6163, -122.3456⟩, 480, 2500⟩,
   ⟨"queen-anne", "Queen Anne", ⟨47.6354, -122.3570⟩, 600, 1700⟩,
   ⟨"capitol-hill", "Capitol Hill", ⟨47.6252, -122.3212⟩, 580, 1800⟩,
   ⟨"ballard", "Ballard", ⟨47.6684, -122.3846⟩, 550, 1200⟩,
   ⟨"fremont", "Fremont", ⟨47.6513, -122.3507⟩, 400, 1100⟩,
   ⟨"udistrict", "U District", ⟨47.6605, -122.3140⟩, 500, 1000⟩,
   ⟨"magnolia", "Magnolia", ⟨47.6397, -122.3992⟩, 600, 1100⟩,
   ⟨"west-seattle", "West Seattle", ⟨47.5652, -122.3868⟩, 700, 800⟩,
   ⟨"beacon-hill", "Beacon Hill", ⟨47.5805, -122.3102⟩, 500, 700⟩,
   ⟨"rainier-valley", "Rainier Valley", ⟨47.5575, -122.2845⟩, 600, 600⟩,
   ⟨"seattle-center", "Seattle Center", ⟨47.6205, -122.3493⟩, 400, 2000⟩,
   ⟨"first-hill", "First Hill", ⟨47.6102, -122.3258⟩, 380, 1900⟩]

/-- Source constant `QUANTIZE_GRID` (0.0002°). -/
noncomputable def QUANTIZE_GRID : ℝ := 0.0002

/-- Source constant `DEFAULT_RATE_PER_SQFT`. -/
noncomputable def DEFAULT_RATE_PER_SQFT : ℝ := 900

/-- Source constant `SOFT_COST_MULT`. -/
noncomputable def SOFT_COST_MULT : ℝ := 1.25

/-- Source constant `NEEDLE_BASE_AREA_SQFT = Math.PI * 60 ** 2 * 10.7639`. -/
noncomputable def NEEDLE_BASE_AREA_SQFT : ℝ := π * 60 ^ 2 * 10.7639

/-- Source constant `ORIGINAL_NEEDLE_POSITION` (the real Space Needle). -/
noncomputable def ORIGINAL_NEEDLE_POSITION : LatLng := ⟨47.6205, -122.3493⟩

/-- Decimal rendering of `(k * QUANTIZE_GRID).toFixed(6)` for grid index `k`:
the quantized coordinate `k * 0.0002` is exactly `k * 200` micro-degrees, printed
with six fraction digits as JS `Number.prototype.toFixed(6)` prints it. -/
def toFixed6OfGrid (k : ℤ) : String :=
  let micro := k * 200
  let m := micro.natAbs
  let intPart := m / 1000000
  let frac := m % 1000000
  let fracStr := toString frac
  let pad := String.mk (List.replicate (6 - fracStr.length) '0')
  (if micro < 0 then "-" else "") ++ toString intPart ++ "." ++ pad ++ fracStr

/-- The 31-based string hash of `seedFromQuantizedLatLng`:
`h = (h * 31 + s.charCodeAt(i)) >>> 0` over the characters of `s`. -/
def jsHash31 (s : String) : ℕ :=
  s.data.foldl (fun h c => (h * 31 + c.toNat) % 2 ^ 32) 0

/-- One step of the source's `seededRandom` linear-congruential generator:
`seed = (seed * 9301 + 49297) % 233280`. -/
def lcgNext (seed : ℕ) : ℕ := (seed * 9301 + 49297) % 233280

/-- The value returned by one call of the `seededRandom` closure seeded with
`seed`: the updated LCG state divided by 233280. -/
noncomputable def lcgVal (seed : ℕ) : ℝ := (lcgNext seed : ℝ) / 233280

/-- The grid index `Math.round(v / QUANTIZE_GRID)` used by the quantizer. -/
noncomputable def quantIndex (v : ℝ) : ℤ := round (v / QUANTIZE_GRID)

/-- Embedding of `seedFromQuantizedLatLng(lat, lng)`: quantize both coordinates
to the 0.0002° grid, render each with `toFixed(6)`, concatenate and hash. -/
noncomputable def seedFromQuantizedLatLng (lat lng : ℝ) : ℕ :=
  jsHash31 (toFixed6OfGrid (quantIndex lat) ++ toFixed6OfGrid (quantIndex lng))

/-- The zones whose center is within their radius of the point: the source's
`ZONES.filter((z) => distanceMeters(hover, z.center) <= z.radiusM)`. -/
noncomputable def zoneMatches (lat lng : ℝ) : List Zone :=
  ZONES.filter (fun z => distanceMeters ⟨lat, lng⟩ z.center ≤ z.radiusM)

/-- The result record of `getValuationAtLatLng`. -/
structure LandValuation where
  ratePerSqFt : ℝ
  landValue : ℝ
  neighborhoodLabel : String

/-- Embedding of `getValuationAtLatLng(lat, lng)`: zone matching on the raw
coordinates, seeded ±5% jitter, soft-cost multiplier, rounding to the nearest
$10,000 (JS `Math.round(x / 10000) * 10000`). -/
noncomputable def getValuationAtLatLng (lat lng : ℝ) : LandValuation :=
  let ms := zoneMatches lat lng
  let rate : ℝ :=
    if ms.length = 0 then DEFAULT_RATE_PER_SQFT
    else if ms.length = 1 then ms.headI.ratePerSqFt
    else (ms.map Zone.ratePerSqFt).sum / (ms.length : ℝ)
  let neighborhoodLabel : String :=
    if ms.length = 0 then "Seattle (General)"
    else if ms.length = 1 then ms.headI.name
    else "Border Zone: " ++ String.intercalate " + " (ms.map Zone.name)
  let seed := seedFromQuantizedLatLng lat lng
  let multiplier := 0.95 + lcgVal seed * 0.1
  let finalRate := rate * multiplier
  let rawLandValue := finalRate * NEEDLE_BASE_AREA_SQFT
  let landValue := ((round (rawLandValue * SOFT_COST_MULT / 10000) : ℤ) : ℝ) * 10000
  ⟨finalRate, landValue, neighborhoodLabel⟩

/-- Axis-aligned geographic bounding box, the source's `{latMin, latMax, lngMin, lngMax}`. -/
structure GeoBounds where
  latMin : ℝ
  latMax : ℝ
  lngMin : ℝ
  lngMax : ℝ

/-- Containment in a bounding box (all the source's box tests use this shape). -/
def inGeoBounds (b : GeoBounds) (lat lng : ℝ) : Prop :=
  b.latMin ≤ lat ∧ lat ≤ b.latMax ∧ b.lngMin ≤ lng ∧ lng ≤ b.lngMax

/-- Source constant `SEATTLE_CITY_LIMITS`. -/
noncomputable def SEATTLE_CITY_LIMITS : GeoBounds := ⟨47.53, 47.68, -122.44, -122.25⟩

/-- Embedding of `isInsideCityLimits(lat, lng)`. -/
def isInsideCityLimits (lat lng : ℝ) : Prop := inGeoBounds SEATTLE_CITY_LIMITS lat lng

/-- Source constants for tourism revenue (billions). -/
noncomputable def TOURISM_REVENUE_MIN_B : ℝ := 0.6

/-- Source constant `TOURISM_REVENUE_MAX_B`. -/
noncomputable def TOURISM_REVENUE_MAX_B : ℝ := 1.4

/-- Source constant `TOURISM_FLUCTUATION_B`. -/
noncomputable def TOURISM_FLUCTUATION_B : ℝ := 0.3

/-- Source constant `TOURISM_OUTSIDE_CITY_MAX_B`. -/
noncomputable def TOURISM_OUTSIDE_CITY_MAX_B : ℝ := 0.5

/-- Source constant `TOURISM_DISTANCE_DECAY_KM`. -/
noncomputable def TOURISM_DISTANCE_DECAY_KM : ℝ := 12

/-- Embedding of `computeTourismRevenue(lat, lng)`: seeded base and fluctuation,
linear distance decay floored at 0.2, clamped to the in-city or outside-city
band, in dollars. -/
noncomputable def computeTourismRevenue (lat lng : ℝ) : ℝ :=
  let distM := distanceMeters ⟨lat, lng⟩ ORIGINAL_NEEDLE_POSITION
  let distKm := distM / 1000
  let distanceFactor := max 0.2 (1 - distKm / TOURISM_DISTANCE_DECAY_KM)
  let seed := seedFromQuantizedLatLng lat lng
  let r1 := lcgVal seed
  let r2 := lcgVal (lcgNext seed)
  if isInsideCityLimits lat lng then
    let base := TOURISM_REVENUE_MIN_B + r1 * (TOURISM_REVENUE_MAX_B - TOURISM_REVENUE_MIN_B)
    let fluct := (r2 - 0.5) * 2 * TOURISM_FLUCTUATION_B
    max 0.3 (min TOURISM_REVENUE_MAX_B ((base + fluct) * distanceFactor)) * 1000000000
  else
    let base := 0.2 + r1 * (TOURISM_OUTSIDE_CITY_MAX_B - 0.25)
    let fluct := (r2 - 0.5) * 0.2
    max 0.05 (min TOURISM_OUTSIDE_CITY_MAX_B ((base + fluct) * distanceFactor)) * 1000000000

/-- The jitter multiplier `0.95 + r() * 0.1` computed inside
`getValuationAtLatLng` for a given point. -/
noncomputable def jitterMult (lat lng : ℝ) : ℝ :=
  0.95 + lcgVal (seedFromQuantizedLatLng lat lng) * 0.1

/-- A placed landmark (the source's placement objects). -/
structure Placement where
  id : ℕ
  lat : ℝ
  lng : ℝ
  altitude : ℝ
  neighborhoodLabel : String
  landValue : ℝ
  ratePerSqFt : ℝ
  tourismRevenue : ℝ

/-- Source constant `FOOTPRINT_RADIUS_M` (the capture radius, ~400 ft). -/
noncomputable def FOOTPRINT_RADIUS_M : ℝ := 122

/-- Source constant `SEATTLE_CENTER` (also the original needle position). -/
noncomputable def SEATTLE_CENTER : LatLng := ⟨47.6205, -122.3493⟩

/-- Source constant `ORIGINAL_NEEDLE_ID` (sentinel id of the original needle). -/
def ORIGINAL_NEEDLE_ID : ℕ := 0

/-- One step of the source's `reduce` computing the nearest placement:
`d < best.d ? {id: p.id, d} : best`, with `none` standing for the initial
`{id: null, d: Infinity}` accumulator. -/
noncomputable def nearestStep (pos : LatLng) (best : Option (ℕ × ℝ)) (p : Placement) :
    Option (ℕ × ℝ) :=
  match best with
  | none => some (p.id, distanceMeters pos ⟨p.lat, p.lng⟩)
  | some (i, d) =>
    if distanceMeters pos ⟨p.lat, p.lng⟩ < d then some (p.id, distanceMeters pos ⟨p.lat, p.lng⟩)
    else some (i, d)

/-- The nearest placed landmark to `pos` (id and distance), `none` for an empty
list — the source's `list.reduce(..., {id: null, d: Infinity})`. -/
noncomputable def nearestNeedle (pos : LatLng) (list : List Placement) : Option (ℕ × ℝ) :=
  list.foldl (nearestStep pos) none

/-- Embedding of the hint-update block of `onPointerMove` (run when no needle is
hovered and a pointer position exists): nearest-within-radius with the original
needle taking precedence inside its own footprint, and 0.75× hysteresis against
the currently locked hint. -/
noncomputable def hintResolve (pos : LatLng) (list : List Placement)
    (currentHint : Option ℕ) : Option ℕ :=
  let distToOriginal := distanceMeters pos ⟨SEATTLE_CENTER.lat, SEATTLE_CENTER.lng⟩
  let inOriginal := distToOriginal < FOOTPRINT_RADIUS_M
  if list.length ≠ 0 then
    match nearestNeedle pos list with
    | some (nid, nd) =>
      if inOriginal ∧ (nid = ORIGINAL_NEEDLE_ID ∨ nd ≥ FOOTPRINT_RADIUS_M ∨ distToOriginal ≤ nd)
        then some ORIGINAL_NEEDLE_ID
      else if nd < FOOTPRINT_RADIUS_M then
        match currentHint with
        | none => some nid
        | some c =>
          if nid = c then some nid
          else
            match List.find? (fun p => p.id = c) list with
            | some cp =>
              if nd < distanceMeters pos ⟨cp.lat, cp.lng⟩ * 0.75 then some nid else some c
            | none =>
              if c = ORIGINAL_NEEDLE_ID then
                if nd < distToOriginal * 0.75 then some nid else some c
              else some nid
      else none
    | none => if inOriginal then some ORIGINAL_NEEDLE_ID else none
  else if inOriginal then some ORIGINAL_NEEDLE_ID else none

/-- The edge list `(polygon[i], polygon[j])` with `j = i-1` (wrapping), as the
source's ray-casting loop visits it. -/
def polygonEdges (polygon : List (ℝ × ℝ)) : List ((ℝ × ℝ) × (ℝ × ℝ)) :=
  polygon.zip (polygon.rotate (polygon.length - 1))

/-- Embedding of `pointInPolygon(lat, lng, polygon)`: ray-casting east, counting
crossings to the right of `lng`; degenerate polygons (< 3 points) are `false`. -/
noncomputable def pointInPolygon (lat lng : ℝ) (polygon : List (ℝ × ℝ)) : Bool :=
  if polygon.length < 3 then false
  else
    (polygonEdges polygon).foldl (fun inside e =>
      let latI := e.1.1
      let lngI := e.1.2
      let latJ := e.2.1
      let lngJ := e.2.2
      if latI = latJ then inside
      else if ¬((latI > lat) ↔ (latJ > lat)) ∧
          lngI + (lngJ - lngI) * (lat - latI) / (latJ - latI) > lng then !inside
      else inside) false

/-- Embedding of `isInSeattleNeighborhood` over the session's loaded polygon
cache (`null`/unloaded is the empty list). -/
noncomputable def isInSeattleNeighborhood (polys : List (List (ℝ × ℝ)))
    (lat lng : ℝ) : Prop :=
  ∃ poly ∈ polys, pointInPolygon lat lng poly = true

/-- Source constant `WATER_BOUNDS`. -/
noncomputable def WATER_BOUNDS : List GeoBounds :=
  [⟨47.53, 47.68, -122.48, -122.32⟩,
   ⟨47.634, 47.648, -122.338, -122.318⟩,
   ⟨47.53, 47.66, -122.318, -122.24⟩,
   ⟨47.648, 47.658, -122.318, -122.298⟩]

/-- Embedding of `isInWaterBounds(lat, lng)`. -/
noncomputable def isInWaterBounds (lat lng : ℝ) : Prop :=
  ∃ b ∈ WATER_BOUNDS, inGeoBounds b lat lng

/-- Embedding of `isWaterPlacement(lat, lng, elevation)`: neighborhoods are
land, water bounds are water, else elevation at most 1 m means water, else
land; a missing elevation (`null`) falls back to the polygon/box guess. -/
noncomputable def isWaterPlacement (polys : List (List (ℝ × ℝ)))
    (lat lng : ℝ) (elevation : Option ℝ) : Bool :=
  if isInSeattleNeighborhood polys lat lng then false
  else if isInWaterBounds lat lng then true
  else
    match elevation with
    | some e => decide (e ≤ 1)
    | none => false

/-- Source constant `UW_CAMPUS_BOUNDS`. -/
noncomputable def UW_CAMPUS_BOUNDS : GeoBounds := ⟨47.6498, 47.6578, -122.314, -122.296⟩

/-- Source constant `LUMEN_FIELD_BOUNDS`. -/
noncomputable def LUMEN_FIELD_BOUNDS : GeoBounds := ⟨47.5942, 47.5958, -122.3328, -122.3302⟩

/-- Source constant `T_MOBILE_PARK_BOUNDS`. -/
noncomputable def T_MOBILE_PARK_BOUNDS : GeoBounds := ⟨47.5906, 47.5932, -122.3348, -122.3302⟩

/-- Source constant `CLIMATE_PLEDGE_ARENA_BOUNDS`. -/
noncomputable def CLIMATE_PLEDGE_ARENA_BOUNDS : GeoBounds :=
  ⟨47.6214, 47.6226, -122.3542, -122.3518⟩

/-- Source constant `MOPOP_BOUNDS`. -/
noncomputable def MOPOP_BOUNDS : GeoBounds := ⟨47.62105, 47.62173, -122.34845, -122.34767⟩

/-- Source constant `CHIHULY_BOUNDS`. -/
noncomputable def CHIHULY_BOUNDS : GeoBounds := ⟨47.61998, 47.62048, -122.35095, -122.35048⟩

/-- Source constant `PACIFIC_SCIENCE_CENTER_BOUNDS`. -/
noncomputable def PACIFIC_SCIENCE_CENTER_BOUNDS : GeoBounds :=
  ⟨47.61928, 47.61968, -122.35108, -122.35052⟩

/-- Embedding of `isOnUWCampusOrStadiums`. -/
def isOnUWCampusOrStadiums (lat lng : ℝ) : Prop := inGeoBounds UW_CAMPUS_BOUNDS lat lng

/-- Embedding of `isAtLumenField`. -/
def isAtLumenField (lat lng : ℝ) : Prop := inGeoBounds LUMEN_FIELD_BOUNDS lat lng

/-- Embedding of `isAtTMobileParkOrAdjacent`. -/
def isAtTMobileParkOrAdjacent (lat lng : ℝ) : Prop :=
  inGeoBounds T_MOBILE_PARK_BOUNDS lat lng

/-- Embedding of `isAtClimatePledgeArena`. -/
def isAtClimatePledgeArena (lat lng : ℝ) : Prop :=
  inGeoBounds CLIMATE_PLEDGE_ARENA_BOUNDS lat lng

/-- Embedding of `isAtMoPop`. -/
def isAtMoPop (lat lng : ℝ) : Prop := inGeoBounds MOPOP_BOUNDS lat lng

/-- Embedding of `isAtChihuly`. -/
def isAtChihuly (lat lng : ℝ) : Prop := inGeoBounds CHIHULY_BOUNDS lat lng

/-- Embedding of `isAtPacificScienceCenter`. -/
def isAtPacificScienceCenter (lat lng : ℝ) : Prop :=
  inGeoBounds PACIFIC_SCIENCE_CENTER_BOUNDS lat lng

/-- The drop sound chosen by the click handlers' if/else chain. -/
inductive DropSound where
  | dogBark
  | crowdStomp
  | baseballOrgan
  | airHorn
  | glassSmash
  | splash
  | crunch
deriving DecidableEq

/-- The drop-sound selection chain of the click handlers (UW, Lumen Field,
T-Mobile Park, Climate Pledge Arena, the glass buildings, then water versus
land via `isWaterPlacement`). -/
noncomputable def dropSoundFor (polys : List (List (ℝ × ℝ))) (lat lng : ℝ)
    (elevation : Option ℝ) : DropSound :=
  if isOnUWCampusOrStadiums lat lng then .dogBark
  else if isAtLumenField lat lng then .crowdStomp
  else if isAtTMobileParkOrAdjacent lat lng then .baseballOrgan
  else if isAtClimatePledgeArena lat lng then .airHorn
  else if isAtMoPop lat lng ∨ isAtChihuly lat lng ∨ isAtPacificScienceCenter lat lng
    then .glassSmash
  else if isWaterPlacement polys lat lng elevation then .splash
  else .crunch

/-- Source constant `DEFAULT_TILT`. -/
noncomputable def DEFAULT_TILT : ℝ := 67

/-- Source constant `DEFAULT_HEADING`. -/
noncomputable def DEFAULT_HEADING : ℝ := 230

/-- Source constant `DEFAULT_RANGE`. -/
noncomputable def DEFAULT_RANGE : ℝ := 900

/-- Source constant `VISIT_ALTITUDE_ASL_M = 520 * 0.3048`. -/
noncomputable def VISIT_ALTITUDE_ASL_M : ℝ := 520 * 0.3048

/-- Source constant `VISIT_RANGE_M`. -/
noncomputable def VISIT_RANGE_M : ℝ := 200

/-- JS `%` for the nonnegative operands used here: `a - b * ⌊a / b⌋`. -/
noncomputable def jsMod (a b : ℝ) : ℝ := a - b * (⌊a / b⌋ : ℤ)

/-- Embedding of `bearingDegrees(a, b)`: initial bearing, normalized to
`[0, 360)`; `Math.atan2(x, y)` is the argument of the complex number `y + x i`. -/
noncomputable def bearingDegrees (a b : LatLng) : ℝ :=
  let dLon := degToRad (b.lng - a.lng)
  let lat1 := degToRad a.lat
  let lat2 := degToRad b.lat
  let x := Real.sin dLon * Real.cos lat2
  let y := Real.cos lat1 * Real.sin lat2 - Real.sin lat1 * Real.cos lat2 * Real.cos dLon
  let bearing := Complex.arg ⟨y, x⟩ * 180 / π
  jsMod (bearing + 360) 360

/-- The per-session environment: the asynchronously loaded Seattle neighborhood
polygon cache (empty when the fetch failed or has not completed). -/
structure SessionEnv where
  polys : List (List (ℝ × ℝ))

/-- The interaction-relevant component state of `MapScene` (React state hooks
plus the camera owned by the map element). -/
structure MapState where
  placements : List Placement
  isPlacing : Bool
  movingNeedleId : Option ℕ
  visitMode : Bool
  hoveredNeedleId : Option ℕ
  hintNeedleId : Option ℕ
  panelNeedleId : Option ℕ
  visitedNeedleId : Option ℕ
  nextPlacementId : ℕ
  soundEnabled : Bool
  lastDropSound : Option DropSound
  camera : CameraPose

/-- The initial state: placing mode on, no placements, sentinel-only, default
camera pose. -/
noncomputable def initState : MapState where
  placements := []
  isPlacing := true
  movingNeedleId := none
  visitMode := false
  hoveredNeedleId := none
  hintNeedleId := none
  panelNeedleId := none
  visitedNeedleId := none
  nextPlacementId := 1
  soundEnabled := true
  lastDropSound := none
  camera := ⟨SEATTLE_CENTER, DEFAULT_HEADING, DEFAULT_TILT, DEFAULT_RANGE⟩

/-- The hover-selection block of `onPointerMove` (original needle wins inside
its footprint when at least as close; otherwise the nearest placement within
the capture radius). -/
noncomputable def hoverResolve (pos : LatLng) (list : List Placement) : Option ℕ :=
  let distToOriginal := distanceMeters pos ⟨SEATTLE_CENTER.lat, SEATTLE_CENTER.lng⟩
  let inOriginal := distToOriginal < FOOTPRINT_RADIUS_M
  match nearestNeedle pos list with
  | some (nid, nd) =>
    if inOriginal ∧ (nd ≥ FOOTPRINT_RADIUS_M ∨ distToOriginal ≤ nd) then
      some ORIGINAL_NEEDLE_ID
    else if nd < FOOTPRINT_RADIUS_M then some nid
    else none
  | none => if inOriginal then some ORIGINAL_NEEDLE_ID else none

/-- Transition for a `pointermove` event on the wrapper.  The hint update is
gated on the pre-event hovered id (the handler reads it through a ref that
still holds the previous render's value). -/
noncomputable def pointerMoveStep (s : MapState) (pos : Option LatLng)
    (overMenu onSurface : Bool) : MapState :=
  if !onSurface then
    if !overMenu then { s with hoveredNeedleId := none } else s
  else if !s.isPlacing && s.movingNeedleId.isNone && !s.visitMode then
    let hovered :=
      if overMenu then s.hoveredNeedleId
      else match pos with
        | some ps => hoverResolve ps s.placements
        | none => none
    let hint :=
      match s.hoveredNeedleId, pos with
      | none, some ps => hintResolve ps s.placements s.hintNeedleId
      | _, _ => s.hintNeedleId
    { s with hoveredNeedleId := hovered, hintNeedleId := hint }
  else { s with hintNeedleId := none }

/-- Transition for `pointerleave`. -/
def pointerLeaveStep (s : MapState) : MapState :=
  { s with hintNeedleId := none, hoveredNeedleId := none }

/-- The placement object built by the placing branch of `onClick`. -/
noncomputable def newPlacementAt (s : MapState) (p : LatLng) : Placement :=
  { id := s.nextPlacementId
    lat := p.lat
    lng := p.lng
    altitude := 0
    neighborhoodLabel := (getValuationAtLatLng p.lat p.lng).neighborhoodLabel
    landValue := (getValuationAtLatLng p.lat p.lng).landValue
    ratePerSqFt := (getValuationAtLatLng p.lat p.lng).ratePerSqFt
    tourismRevenue := computeTourismRevenue p.lat p.lng }

/-- The click-to-open-menu block of `onClick` (runs when neither placing nor
visiting): a needle id from the DOM path, else the nearest placement within
the capture radius, else the original needle inside its own footprint. -/
noncomputable def clickMenuUpdate (s : MapState) (p : LatLng)
    (pathId : Option ℕ) : MapState :=
  let fromPath := pathId
  let fromNearest :=
    match fromPath with
    | some i => some i
    | none =>
      if s.placements.length > 0 then
        match nearestNeedle p s.placements with
        | some (nid, nd) => if nd < FOOTPRINT_RADIUS_M then some nid else none
        | none => none
      else none
  let needleId :=
    match fromNearest with
    | some i => some i
    | none =>
      let distToOriginal := distanceMeters p ⟨SEATTLE_CENTER.lat, SEATTLE_CENTER.lng⟩
      if distToOriginal < FOOTPRINT_RADIUS_M ∧
          (match nearestNeedle p s.placements with
           | none => True
           | some (_, nd) => nd ≥ FOOTPRINT_RADIUS_M ∨ distToOriginal ≤ nd) then
        some ORIGINAL_NEEDLE_ID
      else none
  match needleId with
  | some id =>
    if id = ORIGINAL_NEEDLE_ID ∨ (List.find? (fun q => q.id = id) s.placements).isSome then
      { s with hintNeedleId := none, hoveredNeedleId := some id }
    else { s with hoveredNeedleId := none }
  | none => { s with hoveredNeedleId := none }

/-- Transition for a confirming surface click at position `p`, with the
elevation-service outcome `elev` (`none` for failure/timeout/null) and the
needle id carried by the DOM event path, mirroring `onClick`: move-confirm
first, then the menu block, then placement. -/
noncomputable def clickStep (env : SessionEnv) (s : MapState) (p : LatLng)
    (elev : Option ℝ) (pathId : Option ℕ) : MapState :=
  match s.movingNeedleId with
  | some mid =>
    { s with
      placements := s.placements.map (fun q =>
        if q.id = mid then
          { q with
            lat := p.lat
            lng := p.lng
            altitude := 0
            neighborhoodLabel := (getValuationAtLatLng p.lat p.lng).neighborhoodLabel
            landValue := (getValuationAtLatLng p.lat p.lng).landValue
            ratePerSqFt := (getValuationAtLatLng p.lat p.lng).ratePerSqFt
            tourismRevenue := computeTourismRevenue p.lat p.lng }
        else q)
      movingNeedleId := none
      isPlacing := false
      lastDropSound :=
        if s.soundEnabled then some (dropSoundFor env.polys p.lat p.lng elev)
        else s.lastDropSound }
  | none =>
    let s1 := if !s.isPlacing && !s.visitMode then clickMenuUpdate s p pathId else s
    if s.isPlacing then
      { s with
        placements := s.placements ++ [newPlacementAt s p]
        nextPlacementId := s.nextPlacementId + 1
        isPlacing := false
        lastDropSound :=
          if s.soundEnabled then some (dropSoundFor env.polys p.lat p.lng elev)
          else s.lastDropSound }
    else s1

/-- Transition for the Remove Needle menu action (`onRemoveNeedle`). -/
def removeStep (s : MapState) (id : ℕ) : MapState :=
  let remaining := s.placements.filter (fun q => q.id ≠ id)
  { s with
    placements := remaining
    hoveredNeedleId := none
    isPlacing := if remaining.length = 0 then true else s.isPlacing }

/-- Transition for the Move Needle menu action (`onMoveNeedle`): note it sets
both the moving id and the placing flag (the ghost preview is shared). -/
def moveStep (s : MapState) (id : ℕ) : MapState :=
  { s with movingNeedleId := some id, isPlacing := true, hoveredNeedleId := none }

/-- Transition for the Visit Needle menu action (`onVisitNeedle`). -/
noncomputable def visitStep (s : MapState) (id : ℕ) : MapState :=
  let visited : Option LatLng :=
    if id = ORIGINAL_NEEDLE_ID then some ⟨SEATTLE_CENTER.lat, SEATTLE_CENTER.lng⟩
    else match List.find? (fun q => q.id = id) s.placements with
      | some q => some ⟨q.lat, q.lng⟩
      | none => none
  match visited with
  | none => s
  | some v =>
    let heading :=
      jsMod (bearingDegrees v ⟨SEATTLE_CENTER.lat, SEATTLE_CENTER.lng⟩ + 15 + 360) 360
    { s with
      hoveredNeedleId := none
      panelNeedleId := some id
      visitedNeedleId := some id
      visitMode := true
      camera := ⟨v, heading, 82, VISIT_RANGE_M⟩ }

/-- Transition for leaving visit mode (`onExitVisit`): restores the default
camera pose. -/
noncomputable def exitVisitStep (s : MapState) : MapState :=
  { s with
    camera := ⟨SEATTLE_CENTER, DEFAULT_HEADING, DEFAULT_TILT, DEFAULT_RANGE⟩
    panelNeedleId := none
    visitMode := false
    visitedNeedleId := none }

/-- Transition for the erase-all action (`onClearNeedles`). -/
noncomputable def clearStep (s : MapState) : MapState :=
  { s with
    placements := []
    movingNeedleId := none
    hoveredNeedleId := none
    panelNeedleId := none
    visitMode := false
    isPlacing := true
    camera := ⟨SEATTLE_CENTER, DEFAULT_HEADING, DEFAULT_TILT, DEFAULT_RANGE⟩ }

/-- Transition for the Place Needle button. -/
def placeAnotherStep (s : MapState) : MapState :=
  { s with panelNeedleId := none, isPlacing := true }

/-- The user/system events that drive the interaction state. -/
inductive Event where
  | pointerMove (pos : Option LatLng) (overMenu onSurface : Bool)
  | pointerLeave
  | click (p : LatLng) (elev : Option ℝ) (pathId : Option ℕ)
  | removeNeedle (id : ℕ)
  | moveNeedle (id : ℕ)
  | visitNeedle (id : ℕ)
  | exitVisit
  | clearNeedles
  | placeAnother
  | enableSound
  | disableSound

/-- The needle action menu for `id` is on screen: it is rendered only when
`id` is hovered, no mode is active, and the target exists. -/
def menuOpen (s : MapState) (id : ℕ) : Prop :=
  s.hoveredNeedleId = some id ∧ s.isPlacing = false ∧ s.movingNeedleId = none ∧
    s.visitMode = false ∧
    (id = ORIGINAL_NEEDLE_ID ∨ (List.find? (fun q => q.id = id) s.placements).isSome)

/-- Guard for each event: the conditions under which the UI can deliver it
(menu buttons require the menu to be open; the Remove button additionally
requires more than one placement; the two bottom buttons have their disabled
conditions). -/
def eventEnabled (e : Event) (s : MapState) : Prop :=
  match e with
  | .removeNeedle id => menuOpen s id ∧ id ≠ ORIGINAL_NEEDLE_ID ∧ 1 < s.placements.length
  | .moveNeedle id => menuOpen s id ∧ id ≠ ORIGINAL_NEEDLE_ID
  | .visitNeedle id => menuOpen s id
  | .exitVisit => s.visitMode = true
  | .clearNeedles => 1 ≤ s.placements.length
  | .placeAnother => ¬(s.placements.length < 1 ∧ s.isPlacing = false) ∧ s.movingNeedleId = none
  | _ => True

/-- The transition function. -/
noncomputable def stepEv (env : SessionEnv) (e : Event) (s : MapState) : MapState :=
  match e with
  | .pointerMove pos overMenu onSurface => pointerMoveStep s pos overMenu onSurface
  | .pointerLeave => pointerLeaveStep s
  | .click p elev pathId => clickStep env s p elev pathId
  | .removeNeedle id => removeStep s id
  | .moveNeedle id => moveStep s id
  | .visitNeedle id => visitStep s id
  | .exitVisit => exitVisitStep s
  | .clearNeedles => clearStep s
  | .placeAnother => placeAnotherStep s
  | .enableSound => { s with soundEnabled := true }
  | .disableSound => { s with soundEnabled := false }

/-- Reachability: states the session can be in, starting from `initState` and
following enabled events. -/
inductive Reachable (env : SessionEnv) : MapState → Prop where
  | init : Reachable env initState
  | step {s : MapState} (e : Event) (hr : Reachable env s) (he : eventEnabled e s) :
      Reachable env (stepEv env e s)

/-- The on-screen needle count, `1 + placements.length` (the sentinel original
plus the placed ones). -/
def totalNeedles (s : MapState) : ℕ := 1 + s.placements.length

/-- C1: for every camera pose with `tiltDeg` in `[0, 85]` and every pixel strictly
inside the viewport, the approximate inverse projector applied to the output of the
approximate forward projector returns the original pixel exactly (the two
transforms are exact algebraic inverses). -/
theorem roundTrip_screenToGeo_geToScreen (pose : CameraPose) (rect : Viewport) (x y : ℝ)
    (hw : 0 < rect.width) (hh : 0 < rect.height) (hr : 0 < pose.rangeMeters)
    (hc : Real.cos (degToRad pose.center.lat) ≠ 0)
    (ht0 : 0 ≤ pose.tiltDeg) (ht85 : pose.tiltDeg ≤ 85)
    (hx0 : 0 < x) (hxw : x < rect.width) (hy0 : 0 < y) (hyh : y < rect.height) :
    ∃ p, pixelToApproxLatLng pose rect x y = some p ∧
      latLngToContainerPixel pose rect p = (x, y) := by
  have hguard : ¬(x < 0 ∨ x > rect.width ∨ y < 0 ∨ y > rect.height) := by
    push_neg
    exact ⟨le_of_lt hx0, ⟨le_of_lt hxw, le_of_lt hy0, le_of_lt hyh⟩⟩
  have hmin : 0 < min rect.width rect.height := lt_min hw hh
  have hmpp : (pose.rangeMeters * 2.2) / min rect.width rect.height ≠ 0 := by
    positivity
  have hmax : max (0.25 : ℝ) (Real.cos (degToRad pose.tiltDeg)) ≠ 0 := by
    have : (0.25 : ℝ) ≤ max 0.25 (Real.cos (degToRad pose.tiltDeg)) := le_max_left _ _
    linarith
  have hsc : Real.sin (degToRad pose.headingDeg) ^ 2
      + Real.cos (degToRad pose.headingDeg) ^ 2 = 1 :=
    Real.sin_sq_add_cos_sq _
  refine ⟨pixelToApproxLatLngCore pose rect x y, ?_, ?_⟩
  · rw [pixelToApproxLatLng, if_neg hguard]
  · rw [latLngToContainerPixel]
    simp only [pixelToApproxLatLngCore, POINTER_SENSITIVITY]
    set c := Real.cos (degToRad pose.headingDeg) with hcdef
    set s := Real.sin (degToRad pose.headingDeg) with hsdef
    set cl := Real.cos (degToRad pose.center.lat) with hcl
    set m := (pose.rangeMeters * 2.2) / min rect.width rect.height with hm
    set ys := max (0.25 : ℝ) (Real.cos (degToRad pose.tiltDeg)) with hys
    have hys' : ys ≠ 0 := hmax
    have hs2 : s ^ 2 = 1 - c ^ 2 := by linarith
    refine Prod.ext ?_ ?_
    · show rect.width / 2 + _ = x
      field_simp
      ring_nf
      simp only [hs2]
      ring
    · show rect.height / 2 + _ = y
      field_simp
      ring_nf
      simp only [hs2]
      ring

/-- Closed witness for C1 at the pose centered at the origin with heading 0, tilt 0,
range 100, a 100×100 viewport and pixel (30, 40). -/
theorem roundTrip_screenToGeo_geToScreen_witness :
    ∃ p, pixelToApproxLatLng ⟨⟨0, 0⟩, 0, 0, 100⟩ ⟨100, 100⟩ 30 40 = some p ∧
      latLngToContainerPixel ⟨⟨0, 0⟩, 0, 0, 100⟩ ⟨100, 100⟩ p = (30, 40) :=
  roundTrip_screenToGeo_geToScreen ⟨⟨0, 0⟩, 0, 0, 100⟩ ⟨100, 100⟩ 30 40
    (by norm_num) (by norm_num) (by norm_num)
    (by show Real.cos (degToRad 0) ≠ 0; rw [degToRad]; norm_num)
    (by norm_num) (by norm_num) (by norm_num) (by norm_num) (by norm_num) (by norm_num)

/-- C2 (counterexample): at center latitude 0, heading 0, tilt 0, range 100, a
100×100 viewport and pixel (50, 10), the code's north-meter offset is 88 but the
returned latitude is `0 + 88 * 0.5 / 111320`, not the claimed `0 + 88 / 111320`:
the conversion carries an extra factor 0.5 over the flat-earth constant. -/
theorem flatEarthConversion_claim_counterexample :
    ∃ p, pixelToApproxLatLng ⟨⟨0, 0⟩, 0, 0, 100⟩ ⟨100, 100⟩ 50 10 = some p ∧
      northMetersAt ⟨⟨0, 0⟩, 0, 0, 100⟩ ⟨100, 100⟩ 50 10 = 88 ∧
      p.lat ≠ 0 + 88 / 111320 := by
  have h0 : degToRad 0 = 0 := by rw [degToRad]; ring
  refine ⟨pixelToApproxLatLngCore ⟨⟨0, 0⟩, 0, 0, 100⟩ ⟨100, 100⟩ 50 10,
    by rw [pixelToApproxLatLng, if_neg (by norm_num)], ?_, ?_⟩
  · rw [northMetersAt]
    simp only [h0, Real.cos_zero, Real.sin_zero, POINTER_SENSITIVITY]
    norm_num
  · rw [pixelToApproxLatLngCore]
    simp only [h0, Real.cos_zero, Real.sin_zero, POINTER_SENSITIVITY]
    norm_num

/-- C2 (amended): for every pose and every pixel inside the viewport, the forward
projector converts the rotated east/north meter offsets to lat/lng deltas with an
extra factor 0.5 over the flat-earth constants: `latDelta = northM * 0.5 / 111320`
and `lngDelta = eastM * 0.5 / (111320 * cos(centerLat))` (equivalently, it uses
222,640 m per degree; the inverse mirrors this with its `* 2` factors). -/
theorem flatEarthConversion_halfFactor (pose : CameraPose) (rect : Viewport) (x y : ℝ)
    (hx0 : 0 ≤ x) (hxw : x ≤ rect.width) (hy0 : 0 ≤ y) (hyh : y ≤ rect.height) :
    ∃ p, pixelToApproxLatLng pose rect x y = some p ∧
      p.lat = pose.center.lat + northMetersAt pose rect x y * 0.5 / 111320 ∧
      p.lng = pose.center.lng + eastMetersAt pose rect x y * 0.5
        / (111320 * Real.cos (degToRad pose.center.lat)) := by
  have hguard : ¬(x < 0 ∨ x > rect.width ∨ y < 0 ∨ y > rect.height) := by
    push_neg
    exact ⟨hx0, hxw, hy0, hyh⟩
  refine ⟨pixelToApproxLatLngCore pose rect x y,
    by rw [pixelToApproxLatLng, if_neg hguard], rfl, rfl⟩

/-- Closed witness for the amended C2 at a concrete pose and pixel. -/
theorem flatEarthConversion_halfFactor_witness :
    ∃ p, pixelToApproxLatLng ⟨⟨0, 0⟩, 0, 0, 100⟩ ⟨100, 100⟩ 50 10 = some p ∧
      p.lat = 0 + northMetersAt ⟨⟨0, 0⟩, 0, 0, 100⟩ ⟨100, 100⟩ 50 10 * 0.5 / 111320 ∧
      p.lng = 0 + eastMetersAt ⟨⟨0, 0⟩, 0, 0, 100⟩ ⟨100, 100⟩ 50 10 * 0.5
        / (111320 * Real.cos (degToRad 0)) :=
  flatEarthConversion_halfFactor ⟨⟨0, 0⟩, 0, 0, 100⟩ ⟨100, 100⟩ 50 10
    (by norm_num) (by norm_num) (by norm_num) (by norm_num)

theorem distanceMeters_nonneg (a b : LatLng) : 0 ≤ distanceMeters a b := by
  have h : 0 ≤ Real.arcsin (Real.sqrt (haversineX a b)) :=
    Real.arcsin_nonneg.mpr (Real.sqrt_nonneg _)
  rw [distanceMeters]
  nlinarith

theorem degToRad_abs (d : ℝ) : |degToRad d| = degToRad |d| := by
  rw [degToRad, degToRad, abs_div, abs_mul, abs_of_pos Real.pi_pos]
  norm_num

theorem abs_sin_of_abs_le_pi {x : ℝ} (h : |x| ≤ π) : |Real.sin x| = Real.sin |x| := by
  rcases le_total 0 x with hx | hx
  · rw [abs_of_nonneg hx, abs_of_nonneg]
    exact Real.sin_nonneg_of_nonneg_of_le_pi hx (by rwa [abs_of_nonneg hx] at h)
  · have h1 : Real.sin x ≤ 0 := by
      have : -π ≤ x := by
        have := abs_le.mp h
        linarith [this.1]
      exact Real.sin_nonpos_of_nonnpos_of_neg_pi_le hx this
    rw [abs_of_nonpos h1, abs_of_nonpos hx, Real.sin_neg]

theorem degToRad_div_two_le_half_pi {d : ℝ} (h : |d| ≤ 180) :
    degToRad |d| / 2 ≤ π / 2 := by
  have hpi : (0 : ℝ) < π := Real.pi_pos
  rw [degToRad]
  have h1 : |d| * π ≤ 180 * π := mul_le_mul_of_nonneg_right h (le_of_lt hpi)
  linarith

theorem abs_degToRad_div_two_le_pi {d : ℝ} (h : |d| ≤ 180) :
    |degToRad d / 2| ≤ π := by
  have hpi : (0 : ℝ) < π := Real.pi_pos
  rw [abs_div, degToRad_abs, abs_two]
  have h1 : |d| * π ≤ 180 * π := mul_le_mul_of_nonneg_right h (le_of_lt hpi)
  rw [degToRad]
  linarith

theorem degToRad_lt_degToRad {c d : ℝ} (h : c < d) : degToRad c < degToRad d := by
  rw [degToRad, degToRad]
  have hpi : (0 : ℝ) < π := Real.pi_pos
  nlinarith

theorem le_arcsin_self {z : ℝ} (h0 : 0 ≤ z) (h1 : z ≤ 1) : z ≤ Real.arcsin z := by
  have hs : Real.sin (Real.arcsin z) = z := Real.sin_arcsin (by linarith) h1
  have := Real.sin_le (Real.arcsin_nonneg.mpr h0)
  linarith

/-- On a meridian (equal longitudes), the haversine distance is exactly
`R` times the latitude difference in radians. -/
theorem distanceMeters_meridian (a b : LatLng) (hlng : a.lng = b.lng)
    (hlat : |b.lat - a.lat| ≤ 180) :
    distanceMeters a b = 6371000 * (|b.lat - a.lat| * π / 180) := by
  have hpi : (0 : ℝ) < π := Real.pi_pos
  have htabs : |degToRad (b.lat - a.lat) / 2| = degToRad |b.lat - a.lat| / 2 := by
    rw [abs_div, degToRad_abs]
    norm_num
  have hle : degToRad |b.lat - a.lat| / 2 ≤ π / 2 := by
    rw [degToRad]
    nlinarith
  have h0 : 0 ≤ degToRad |b.lat - a.lat| / 2 := by
    rw [degToRad]
    have := abs_nonneg (b.lat - a.lat)
    positivity
  have hX : haversineX a b = Real.sin (degToRad (b.lat - a.lat) / 2) ^ 2 := by
    rw [haversineX, hlng]
    simp [degToRad]
  rw [distanceMeters, hX, Real.sqrt_sq_eq_abs]
  rw [abs_sin_of_abs_le_pi (by rw [htabs]; linarith), htabs]
  rw [Real.arcsin_sin (by linarith) hle]
  rw [degToRad]
  ring

/-- The haversine distance is at least `R` times the latitude difference in
radians, provided the cosine product is nonnegative. -/
theorem distanceMeters_ge_lat (a b : LatLng)
    (hprod : 0 ≤ Real.cos (degToRad a.lat) * Real.cos (degToRad b.lat))
    (hlat : |b.lat - a.lat| ≤ 180) :
    6371000 * (|b.lat - a.lat| * π / 180) ≤ distanceMeters a b := by
  have hpi : (0 : ℝ) < π := Real.pi_pos
  have htabs : |degToRad (b.lat - a.lat) / 2| = degToRad |b.lat - a.lat| / 2 := by
    rw [abs_div, degToRad_abs]
    norm_num
  have hle : degToRad |b.lat - a.lat| / 2 ≤ π / 2 := by
    rw [degToRad]
    nlinarith
  have h0 : 0 ≤ degToRad |b.lat - a.lat| / 2 := by
    rw [degToRad]
    have := abs_nonneg (b.lat - a.lat)
    positivity
  have hXge : Real.sin (degToRad (b.lat - a.lat) / 2) ^ 2 ≤ haversineX a b := by
    rw [haversineX]
    nlinarith [sq_nonneg (Real.sin (degToRad (b.lng - a.lng) / 2))]
  have hsq : Real.sqrt (Real.sin (degToRad (b.lat - a.lat) / 2) ^ 2)
      ≤ Real.sqrt (haversineX a b) := Real.sqrt_le_sqrt hXge
  rw [Real.sqrt_sq_eq_abs, abs_sin_of_abs_le_pi (by rw [htabs]; linarith), htabs] at hsq
  have harc := Real.monotone_arcsin hsq
  rw [Real.arcsin_sin (by linarith) hle] at harc
  rw [distanceMeters]
  rw [degToRad] at harc
  nlinarith

/-- The haversine quantity never exceeds 1 when the cosine product is
nonnegative. -/
theorem haversineX_le_one (a b : LatLng)
    (hprod : 0 ≤ Real.cos (degToRad a.lat) * Real.cos (degToRad b.lat)) :
    haversineX a b ≤ 1 := by
  have huAB : degToRad a.lat - degToRad b.lat = -degToRad (b.lat - a.lat) := by
    rw [degToRad, degToRad, degToRad]
    ring
  set A := degToRad a.lat
  set B := degToRad b.lat
  set u := degToRad (b.lat - a.lat)
  have hprod2 : Real.cos A * Real.cos B ≤ Real.cos (u / 2) ^ 2 := by
    have h1 : Real.cos (A - B) + Real.cos (A + B) = 2 * (Real.cos A * Real.cos B) := by
      rw [Real.cos_sub, Real.cos_add]
      ring
    have h2 : Real.cos (A - B) = Real.cos u := by rw [huAB, Real.cos_neg]
    have h3 : Real.cos (A + B) ≤ 1 := Real.cos_le_one _
    have h4 : Real.cos (u / 2) ^ 2 = 1 / 2 + Real.cos u / 2 := by
      have := Real.cos_sq (u / 2)
      rwa [show 2 * (u / 2) = u by ring] at this
    nlinarith
  have hs2 : Real.cos A * Real.cos B * Real.sin (degToRad (b.lng - a.lng) / 2) ^ 2
      ≤ Real.cos A * Real.cos B :=
    mul_le_of_le_one_right hprod (Real.sin_sq_le_one _)
  have := Real.sin_sq_add_cos_sq (u / 2)
  rw [haversineX]
  nlinarith

/-- Longitude-based lower bound on the haversine distance: with a common lower
bound `cLow` on the two cosines, the distance is at least
`2 R cLow sin(|dLng|rad / 2)`. -/
theorem distanceMeters_ge_lng (a b : LatLng) (cLow : ℝ) (h0 : 0 ≤ cLow)
    (hca : cLow ≤ Real.cos (degToRad a.lat)) (hcb : cLow ≤ Real.cos (degToRad b.lat))
    (hlng : |b.lng - a.lng| ≤ 180) :
    2 * 6371000 * (cLow * Real.sin (degToRad |b.lng - a.lng| / 2))
      ≤ distanceMeters a b := by
  have hpi : (0 : ℝ) < π := Real.pi_pos
  set s := degToRad |b.lng - a.lng| / 2 with hs
  have hs0 : 0 ≤ s := by
    rw [hs, degToRad]
    have := abs_nonneg (b.lng - a.lng)
    positivity
  have hsle : s ≤ π / 2 := by
    rw [hs]
    exact degToRad_div_two_le_half_pi hlng
  have hsin0 : 0 ≤ Real.sin s :=
    Real.sin_nonneg_of_nonneg_of_le_pi hs0 (by linarith)
  have hsin1 : Real.sin s ≤ 1 := Real.sin_le_one _
  have hsq : Real.sin (degToRad (b.lng - a.lng) / 2) ^ 2 = Real.sin s ^ 2 := by
    rw [← sq_abs, abs_sin_of_abs_le_pi, hs, abs_div, degToRad_abs]
    · norm_num
    · exact abs_degToRad_div_two_le_pi hlng
  have hprod : cLow ^ 2 ≤ Real.cos (degToRad a.lat) * Real.cos (degToRad b.lat) := by
    nlinarith
  have hXge : (cLow * Real.sin s) ^ 2 ≤ haversineX a b := by
    rw [haversineX, hsq]
    nlinarith [sq_nonneg (Real.sin (degToRad (b.lat - a.lat) / 2)),
      sq_nonneg (Real.sin s), sq_nonneg cLow]
  have hsqrt : cLow * Real.sin s ≤ Real.sqrt (haversineX a b) := by
    have := Real.sqrt_le_sqrt hXge
    rwa [Real.sqrt_sq (mul_nonneg h0 hsin0)] at this
  have hz1 : cLow * Real.sin s ≤ 1 := by
    have hc1 : cLow ≤ 1 := le_trans hca (Real.cos_le_one _)
    nlinarith
  have harc : cLow * Real.sin s ≤ Real.arcsin (Real.sqrt (haversineX a b)) :=
    le_trans (le_arcsin_self (mul_nonneg h0 hsin0) hz1) (Real.monotone_arcsin hsqrt)
  rw [distanceMeters]
  nlinarith

/-- Strict monotonicity of the haversine distance in the longitude offset, for
points at the same latitude compared against a common reference. -/
theorem distanceMeters_lt_of_lng (p q o : LatLng) (hlat : p.lat = q.lat)
    (h1 : |q.lng - o.lng| < |p.lng - o.lng|) (h2 : |p.lng - o.lng| ≤ 180)
    (hcp : 0 < Real.cos (degToRad p.lat)) (hco : 0 < Real.cos (degToRad o.lat)) :
    distanceMeters q o < distanceMeters p o := by
  have hpi : (0 : ℝ) < π := Real.pi_pos
  set sp := degToRad |o.lng - p.lng| / 2 with hspdef
  set sq := degToRad |o.lng - q.lng| / 2 with hsqdef
  have habsp : |o.lng - p.lng| = |p.lng - o.lng| := abs_sub_comm _ _
  have habsq : |o.lng - q.lng| = |q.lng - o.lng| := abs_sub_comm _ _
  have hsp0 : 0 ≤ sp := by
    rw [hspdef, degToRad]
    have := abs_nonneg (o.lng - p.lng)
    positivity
  have hsq0 : 0 ≤ sq := by
    rw [hsqdef, degToRad]
    have := abs_nonneg (o.lng - q.lng)
    positivity
  have hsple : sp ≤ π / 2 := by
    rw [hspdef, habsp]
    exact degToRad_div_two_le_half_pi h2
  have hlt : sq < sp := by
    rw [hspdef, hsqdef, habsp, habsq]
    have := degToRad_lt_degToRad h1
    linarith
  have hsinlt : Real.sin sq < Real.sin sp :=
    Real.sin_lt_sin_of_lt_of_le_pi_div_two (by linarith) hsple hlt
  have hsinq0 : 0 ≤ Real.sin sq :=
    Real.sin_nonneg_of_nonneg_of_le_pi hsq0 (by linarith)
  have hsq2 : Real.sin (degToRad (o.lng - q.lng) / 2) ^ 2 = Real.sin sq ^ 2 := by
    rw [← sq_abs, abs_sin_of_abs_le_pi, hsqdef, abs_div, degToRad_abs]
    · norm_num
    · exact abs_degToRad_div_two_le_pi (by rw [habsq]; linarith)
  have hsp2 : Real.sin (degToRad (o.lng - p.lng) / 2) ^ 2 = Real.sin sp ^ 2 := by
    rw [← sq_abs, abs_sin_of_abs_le_pi, hspdef, abs_div, degToRad_abs]
    · norm_num
    · exact abs_degToRad_div_two_le_pi (by rw [habsp]; linarith)
  have hC : 0 < Real.cos (degToRad q.lat) * Real.cos (degToRad o.lat) := by
    rw [← hlat]
    exact mul_pos hcp hco
  have hXlt : haversineX q o < haversineX p o := by
    rw [haversineX, haversineX, hsq2, hsp2, hlat]
    have : Real.sin sq ^ 2 < Real.sin sp ^ 2 := by nlinarith
    nlinarith
  have hXq0 : 0 ≤ haversineX q o := by
    rw [haversineX]
    nlinarith [sq_nonneg (Real.sin (degToRad (o.lat - q.lat) / 2)),
      sq_nonneg (Real.sin (degToRad (o.lng - q.lng) / 2))]
  have hXp1 : haversineX p o ≤ 1 := by
    apply haversineX_le_one
    rw [hlat]
    exact le_of_lt hC
  have hsqrtlt : Real.sqrt (haversineX q o) < Real.sqrt (haversineX p o) :=
    Real.sqrt_lt_sqrt hXq0 hXlt
  have hmem1 : Real.sqrt (haversineX q o) ∈ Set.Icc (-1 : ℝ) 1 := by
    constructor
    · linarith [Real.sqrt_nonneg (haversineX q o)]
    · linarith [Real.sqrt_le_one.mpr (le_of_lt (lt_of_lt_of_le hXlt hXp1))]
  have hmem2 : Real.sqrt (haversineX p o) ∈ Set.Icc (-1 : ℝ) 1 := by
    constructor
    · linarith [Real.sqrt_nonneg (haversineX p o)]
    · exact Real.sqrt_le_one.mpr hXp1
  have harclt := Real.strictMonoOn_arcsin hmem1 hmem2 hsqrtlt
  rw [distanceMeters, distanceMeters]
  nlinarith

/-- Cosine of a small nonnegative latitude (in degrees, at most 48°) is at
least 0.6. -/
theorem cos_degToRad_ge (d : ℝ) (h0 : 0 ≤ d) (h48 : d ≤ 48) :
    0.6 ≤ Real.cos (degToRad d) := by
  set x := degToRad d with hx
  have hpilt : π < 3.141593 := Real.pi_lt_d6
  have hpigt : (3.141592 : ℝ) < π := Real.pi_gt_d6
  have hx0 : 0 ≤ x := by
    rw [hx, degToRad]
    positivity
  have hxle : x ≤ 0.8378 := by
    rw [hx, degToRad]
    nlinarith
  have habs : |x| ≤ 1 := by
    rw [abs_of_nonneg hx0]
    linarith
  have hb := Real.cos_bound habs
  rw [abs_of_nonneg hx0] at hb
  have hb2 := (abs_le.mp hb).1
  have hx2 : x ^ 2 ≤ 0.8378 ^ 2 := by nlinarith
  have hx4 : x ^ 4 ≤ 0.8378 ^ 4 := by nlinarith
  nlinarith

theorem cos_degToRad_pos (d : ℝ) (h0 : 0 ≤ d) (h48 : d ≤ 48) :
    0 < Real.cos (degToRad d) :=
  lt_of_lt_of_le (by norm_num) (cos_degToRad_ge d h0 h48)

/-- A zone is rejected when the latitude separation alone already exceeds its
radius (numeric condition stated with the rational lower bound on π). -/
theorem zone_reject_lat (p c : LatLng) (r d : ℝ)
    (hpa : 0 ≤ p.lat) (hpa48 : p.lat ≤ 48) (hza : 0 ≤ c.lat) (hza48 : c.lat ≤ 48)
    (hd : d ≤ |c.lat - p.lat|)
    (hnum : r * 180 < 6371000 * (d * 3.141592)) :
    ¬ distanceMeters p c ≤ r := by
  have hprod : 0 ≤ Real.cos (degToRad p.lat) * Real.cos (degToRad c.lat) :=
    mul_nonneg (cos_degToRad_pos _ hpa hpa48).le (cos_degToRad_pos _ hza hza48).le
  have hlat : |c.lat - p.lat| ≤ 180 := by
    rw [abs_le]
    constructor <;> linarith
  have hdist := distanceMeters_ge_lat p c hprod hlat
  have hpig : (3.141592 : ℝ) < π := Real.pi_gt_d6
  have hm1 : d * 3.141592 ≤ |c.lat - p.lat| * 3.141592 :=
    mul_le_mul_of_nonneg_right hd (by norm_num)
  have hm2 : |c.lat - p.lat| * 3.141592 ≤ |c.lat - p.lat| * π :=
    mul_le_mul_of_nonneg_left hpig.le (abs_nonneg _)
  push_neg
  linarith

/-- A zone on the same meridian is accepted when the exact meridian distance is
within its radius (numeric condition stated with the rational upper bound on π). -/
theorem zone_accept_meridian (p c : LatLng) (r e : ℝ)
    (hlng : p.lng = c.lng) (habs : |c.lat - p.lat| ≤ e) (he : e ≤ 180)
    (hnum : 6371000 * (e * 3.141593) ≤ r * 180) :
    distanceMeters p c ≤ r := by
  have hpil : π < 3.141593 := Real.pi_lt_d6
  have h0 : 0 ≤ |c.lat - p.lat| := abs_nonneg _
  have he0 : 0 ≤ e := le_trans h0 habs
  have hm1 : |c.lat - p.lat| * π ≤ e * π :=
    mul_le_mul_of_nonneg_right habs Real.pi_pos.le
  have hm2 : e * π ≤ e * 3.141593 := mul_le_mul_of_nonneg_left hpil.le he0
  rw [distanceMeters_meridian p c hlng (by linarith)]
  linarith

/-- A zone is rejected when the longitude separation alone already exceeds its
radius (using the 0.6 cosine floor valid below 48° latitude). -/
theorem zone_reject_lng (p c : LatLng) (r D : ℝ)
    (hpa : 0 ≤ p.lat) (hpa48 : p.lat ≤ 48) (hza : 0 ≤ c.lat) (hza48 : c.lat ≤ 48)
    (hD0 : 0 < D) (hD : D ≤ |c.lng - p.lng|) (hD1 : |c.lng - p.lng| ≤ 1)
    (hnum : r * 360 < 2 * 6371000 * 0.6 * (D * 3.14)) :
    ¬ distanceMeters p c ≤ r := by
  have hca := cos_degToRad_ge p.lat hpa hpa48
  have hcb := cos_degToRad_ge c.lat hza hza48
  have hdist := distanceMeters_ge_lng p c 0.6 (by norm_num) hca hcb (by linarith)
  have hpig : (3.141592 : ℝ) < π := Real.pi_gt_d6
  have hpil : π < 3.141593 := Real.pi_lt_d6
  have hDle1 : D ≤ 1 := le_trans hD hD1
  set s := degToRad |c.lng - p.lng| / 2 with hsdef
  set sD := degToRad D / 2 with hsDdef
  have hsD_lo : D * 3.141592 / 360 ≤ sD := by
    rw [hsDdef, degToRad]
    have := mul_le_mul_of_nonneg_left hpig.le hD0.le
    linarith
  have hsD_hi : sD ≤ D * 3.141593 / 360 := by
    rw [hsDdef, degToRad]
    have := mul_le_mul_of_nonneg_left hpil.le hD0.le
    linarith
  have hsD0 : 0 < sD := by
    have : (0 : ℝ) < D * 3.141592 / 360 := by positivity
    linarith
  have hsDu : sD ≤ 0.0088 := by
    have := mul_le_mul_of_nonneg_right hDle1 (show (0:ℝ) ≤ 3.141593 by norm_num)
    linarith
  have hsD1 : sD ≤ 1 := by linarith
  have hs_le : s ≤ π / 2 := by
    rw [hsdef]
    exact degToRad_div_two_le_half_pi (by linarith)
  have hsD_le_s : sD ≤ s := by
    rw [hsdef, hsDdef, degToRad, degToRad]
    have := mul_le_mul_of_nonneg_right hD Real.pi_pos.le
    linarith
  have hmono : Real.sin sD ≤ Real.sin s :=
    Real.sin_le_sin_of_le_of_le_pi_div_two (by linarith [Real.pi_pos]) hs_le hsD_le_s
  have hcube := Real.sin_gt_sub_cube hsD0 hsD1
  have hsD2 : sD ^ 2 ≤ 0.0001 := by
    have := pow_le_pow_left₀ hsD0.le hsDu 2
    norm_num at this
    linarith
  have hsD3 : sD ^ 3 ≤ sD * 0.0001 := by
    have h3 : sD ^ 2 * sD ≤ 0.0001 * sD := mul_le_mul_of_nonneg_right hsD2 hsD0.le
    calc sD ^ 3 = sD ^ 2 * sD := by ring
    _ ≤ 0.0001 * sD := h3
    _ = sD * 0.0001 := by ring
  have hkey : D * 3.14 / 360 ≤ Real.sin s := by linarith
  push_neg
  linarith

/-- The zone matching at point A `(47.61552, -122.3331)` finds exactly the
Downtown zone. -/
theorem matchesA_eq :
    zoneMatches 47.61552 (-122.3331) =
      [⟨"downtown", "Downtown", ⟨47.6097, -122.3331⟩, 650, 2800⟩] := by
  have h1 : distanceMeters ⟨47.61552, -122.3331⟩ ⟨47.6097, -122.3331⟩ ≤ 650 :=
    zone_accept_meridian _ _ _ 0.00582 rfl (by norm_num [abs_of_nonneg]) (by norm_num [abs_of_nonneg]) (by norm_num [abs_of_nonneg])
  have h2 : ¬ distanceMeters ⟨47.61552, -122.3331⟩ ⟨47.6279, -122.3372⟩ ≤ 520 :=
    zone_reject_lat _ _ _ 0.01238 (by norm_num [abs_of_nonneg]) (by norm_num [abs_of_nonneg]) (by norm_num [abs_of_nonneg]) (by norm_num [abs_of_nonneg])
      (by norm_num [abs_of_nonneg]) (by norm_num [abs_of_nonneg])
  have h3 : ¬ distanceMeters ⟨47.61552, -122.3331⟩ ⟨47.6163, -122.3456⟩ ≤ 480 :=
    zone_reject_lng _ _ _ 0.0125 (by norm_num [abs_of_nonneg]) (by norm_num [abs_of_nonneg]) (by norm_num [abs_of_nonneg]) (by norm_num [abs_of_nonneg])
      (by norm_num [abs_of_nonneg]) (by norm_num [abs_of_nonneg]) (by norm_num [abs_of_nonneg]) (by norm_num [abs_of_nonneg])
  have h4 : ¬ distanceMeters ⟨47.61552, -122.3331⟩ ⟨47.6354, -122.3570⟩ ≤ 600 :=
    zone_reject_lat _ _ _ 0.01988 (by norm_num [abs_of_nonneg]) (by norm_num [abs_of_nonneg]) (by norm_num [abs_of_nonneg]) (by norm_num [abs_of_nonneg])
      (by norm_num [abs_of_nonneg]) (by norm_num [abs_of_nonneg])
  have h5 : ¬ distanceMeters ⟨47.61552, -122.3331⟩ ⟨47.6252, -122.3212⟩ ≤ 580 :=
    zone_reject_lat _ _ _ 0.00968 (by norm_num [abs_of_nonneg]) (by norm_num [abs_of_nonneg]) (by norm_num [abs_of_nonneg]) (by norm_num [abs_of_nonneg])
      (by norm_num [abs_of_nonneg]) (by norm_num [abs_of_nonneg])
  have h6 : ¬ distanceMeters ⟨47.61552, -122.3331⟩ ⟨47.6684, -122.3846⟩ ≤ 550 :=
    zone_reject_lat _ _ _ 0.05288 (by norm_num [abs_of_nonneg]) (by norm_num [abs_of_nonneg]) (by norm_num [abs_of_nonneg]) (by norm_num [abs_of_nonneg])
      (by norm_num [abs_of_nonneg]) (by norm_num [abs_of_nonneg])
  have h7 : ¬ distanceMeters ⟨47.61552, -122.3331⟩ ⟨47.6513, -122.3507⟩ ≤ 400 :=
    zone_reject_lat _ _ _ 0.03578 (by norm_num [abs_of_nonneg]) (by norm_num [abs_of_nonneg]) (by norm_num [abs_of_nonneg]) (by norm_num [abs_of_nonneg])
      (by norm_num [abs_of_nonneg]) (by norm_num [abs_of_nonneg])
  have h8 : ¬ distanceMeters ⟨47.61552, -122.3331⟩ ⟨47.6605, -122.3140⟩ ≤ 500 :=
    zone_reject_lat _ _ _ 0.04498 (by norm_num [abs_of_nonneg]) (by norm_num [abs_of_nonneg]) (by norm_num [abs_of_nonneg]) (by norm_num [abs_of_nonneg])
      (by norm_num [abs_of_nonneg]) (by norm_num [abs_of_nonneg])
  have h9 : ¬ distanceMeters ⟨47.61552, -122.3331⟩ ⟨47.6397, -122.3992⟩ ≤ 600 :=
    zone_reject_lat _ _ _ 0.02418 (by norm_num [abs_of_nonneg]) (by norm_num [abs_of_nonneg]) (by norm_num [abs_of_nonneg]) (by norm_num [abs_of_nonneg])
      (by norm_num [abs_of_nonneg]) (by norm_num [abs_of_nonneg])
  have h10 : ¬ distanceMeters ⟨47.61552, -122.3331⟩ ⟨47.5652, -122.3868⟩ ≤ 700 :=
    zone_reject_lat _ _ _ 0.05032 (by norm_num [abs_of_nonneg]) (by norm_num [abs_of_nonneg]) (by norm_num [abs_of_nonneg]) (by norm_num [abs_of_nonneg])
      (by norm_num [abs_of_nonneg]) (by norm_num [abs_of_nonneg])
  have h11 : ¬ distanceMeters ⟨47.61552, -122.3331⟩ ⟨47.5805, -122.3102⟩ ≤ 500 :=
    zone_reject_lat _ _ _ 0.03502 (by norm_num [abs_of_nonneg]) (by norm_num [abs_of_nonneg]) (by norm_num [abs_of_nonneg]) (by norm_num [abs_of_nonneg])
      (by norm_num [abs_of_nonneg]) (by norm_num [abs_of_nonneg])
  have h12 : ¬ distanceMeters ⟨47.61552, -122.3331⟩ ⟨47.5575, -122.2845⟩ ≤ 600 :=
    zone_reject_lat _ _ _ 0.05802 (by norm_num [abs_of_nonneg]) (by norm_num [abs_of_nonneg]) (by norm_num [abs_of_nonneg]) (by norm_num [abs_of_nonneg])
      (by norm_num [abs_of_nonneg]) (by norm_num [abs_of_nonneg])
  have h13 : ¬ distanceMeters ⟨47.61552, -122.3331⟩ ⟨47.6205, -122.3493⟩ ≤ 400 :=
    zone_reject_lat _ _ _ 0.00498 (by norm_num [abs_of_nonneg]) (by norm_num [abs_of_nonneg]) (by norm_num [abs_of_nonneg]) (by norm_num [abs_of_nonneg])
      (by norm_num [abs_of_nonneg]) (by norm_num [abs_of_nonneg])
  have h14 : ¬ distanceMeters ⟨47.61552, -122.3331⟩ ⟨47.6102, -122.3258⟩ ≤ 380 :=
    zone_reject_lat _ _ _ 0.00532 (by norm_num [abs_of_nonneg]) (by norm_num [abs_of_nonneg]) (by norm_num [abs_of_nonneg]) (by norm_num [abs_of_nonneg])
      (by norm_num [abs_of_nonneg]) (by norm_num [abs_of_nonneg])
  rw [zoneMatches, ZONES]
  simp only [List.filter_cons, List.filter_nil, decide_eq_true_eq]
  rw [if_pos h1, if_neg h2, if_neg h3, if_neg h4, if_neg h5, if_neg h6, if_neg h7,
    if_neg h8, if_neg h9, if_neg h10, if_neg h11, if_neg h12, if_neg h13, if_neg h14]

/-- The zone matching at point B `(47.61568, -122.3331)` finds no zone. -/
theorem matchesB_eq : zoneMatches 47.61568 (-122.3331) = [] := by
  have h1 : ¬ distanceMeters ⟨47.61568, -122.3331⟩ ⟨47.6097, -122.3331⟩ ≤ 650 :=
    zone_reject_lat _ _ _ 0.00598 (by norm_num [abs_of_nonneg]) (by norm_num [abs_of_nonneg]) (by norm_num [abs_of_nonneg]) (by norm_num [abs_of_nonneg])
      (by norm_num [abs_of_nonneg]) (by norm_num [abs_of_nonneg])
  have h2 : ¬ distanceMeters ⟨47.61568, -122.3331⟩ ⟨47.6279, -122.3372⟩ ≤ 520 :=
    zone_reject_lat _ _ _ 0.01222 (by norm_num [abs_of_nonneg]) (by norm_num [abs_of_nonneg]) (by norm_num [abs_of_nonneg]) (by norm_num [abs_of_nonneg])
      (by norm_num [abs_of_nonneg]) (by norm_num [abs_of_nonneg])
  have h3 : ¬ distanceMeters ⟨47.61568, -122.3331⟩ ⟨47.6163, -122.3456⟩ ≤ 480 :=
    zone_reject_lng _ _ _ 0.0125 (by norm_num [abs_of_nonneg]) (by norm_num [abs_of_nonneg]) (by norm_num [abs_of_nonneg]) (by norm_num [abs_of_nonneg])
      (by norm_num [abs_of_nonneg]) (by norm_num [abs_of_nonneg]) (by norm_num [abs_of_nonneg]) (by norm_num [abs_of_nonneg])
  have h4 : ¬ distanceMeters ⟨47.61568, -122.3331⟩ ⟨47.6354, -122.3570⟩ ≤ 600 :=
    zone_reject_lat _ _ _ 0.01972 (by norm_num [abs_of_nonneg]) (by norm_num [abs_of_nonneg]) (by norm_num [abs_of_nonneg]) (by norm_num [abs_of_nonneg])
      (by norm_num [abs_of_nonneg]) (by norm_num [abs_of_nonneg])
  have h5 : ¬ distanceMeters ⟨47.61568, -122.3331⟩ ⟨47.6252, -122.3212⟩ ≤ 580 :=
    zone_reject_lat _ _ _ 0.00952 (by norm_num [abs_of_nonneg]) (by norm_num [abs_of_nonneg]) (by norm_num [abs_of_nonneg]) (by norm_num [abs_of_nonneg])
      (by norm_num [abs_of_nonneg]) (by norm_num [abs_of_nonneg])
  have h6 : ¬ distanceMeters ⟨47.61568, -122.3331⟩ ⟨47.6684, -122.3846⟩ ≤ 550 :=
    zone_reject_lat _ _ _ 0.05272 (by norm_num [abs_of_nonneg]) (by norm_num [abs_of_nonneg]) (by norm_num [abs_of_nonneg]) (by norm_num [abs_of_nonneg])
      (by norm_num [abs_of_nonneg]) (by norm_num [abs_of_nonneg])
  have h7 : ¬ distanceMeters ⟨47.61568, -122.3331⟩ ⟨47.6513, -122.3507⟩ ≤ 400 :=
    zone_reject_lat _ _ _ 0.03562 (by norm_num [abs_of_nonneg]) (by norm_num [abs_of_nonneg]) (by norm_num [abs_of_nonneg]) (by norm_num [abs_of_nonneg])
      (by norm_num [abs_of_nonneg]) (by norm_num [abs_of_nonneg])
  have h8 : ¬ distanceMeters ⟨47.61568, -122.3331⟩ ⟨47.6605, -122.3140⟩ ≤ 500 :=
    zone_reject_lat _ _ _ 0.04482 (by norm_num [abs_of_nonneg]) (by norm_num [abs_of_nonneg]) (by norm_num [abs_of_nonneg]) (by norm_num [abs_of_nonneg])
      (by norm_num [abs_of_nonneg]) (by norm_num [abs_of_nonneg])
  have h9 : ¬ distanceMeters ⟨47.61568, -122.3331⟩ ⟨47.6397, -122.3992⟩ ≤ 600 :=
    zone_reject_lat _ _ _ 0.02402 (by norm_num [abs_of_nonneg]) (by norm_num [abs_of_nonneg]) (by norm_num [abs_of_nonneg]) (by norm_num [abs_of_nonneg])
      (by norm_num [abs_of_nonneg]) (by norm_num [abs_of_nonneg])
  have h10 : ¬ distanceMeters ⟨47.61568, -122.3331⟩ ⟨47.5652, -122.3868⟩ ≤ 700 :=
    zone_reject_lat _ _ _ 0.05048 (by norm_num [abs_of_nonneg]) (by norm_num [abs_of_nonneg]) (by norm_num [abs_of_nonneg]) (by norm_num [abs_of_nonneg])
      (by norm_num [abs_of_nonneg]) (by norm_num [abs_of_nonneg])
  have h11 : ¬ distanceMeters ⟨47.61568, -122.3331⟩ ⟨47.5805, -122.3102⟩ ≤ 500 :=
    zone_reject_lat _ _ _ 0.03518 (by norm_num [abs_of_nonneg]) (by norm_num [abs_of_nonneg]) (by norm_num [abs_of_nonneg]) (by norm_num [abs_of_nonneg])
      (by norm_num [abs_of_nonneg]) (by norm_num [abs_of_nonneg])
  have h12 : ¬ distanceMeters ⟨47.61568, -122.3331⟩ ⟨47.5575, -122.2845⟩ ≤ 600 :=
    zone_reject_lat _ _ _ 0.05818 (by norm_num [abs_of_nonneg]) (by norm_num [abs_of_nonneg]) (by norm_num [abs_of_nonneg]) (by norm_num [abs_of_nonneg])
      (by norm_num [abs_of_nonneg]) (by norm_num [abs_of_nonneg])
  have h13 : ¬ distanceMeters ⟨47.61568, -122.3331⟩ ⟨47.6205, -122.3493⟩ ≤ 400 :=
    zone_reject_lat _ _ _ 0.00482 (by norm_num [abs_of_nonneg]) (by norm_num [abs_of_nonneg]) (by norm_num [abs_of_nonneg]) (by norm_num [abs_of_nonneg])
      (by norm_num [abs_of_nonneg]) (by norm_num [abs_of_nonneg])
  have h14 : ¬ distanceMeters ⟨47.61568, -122.3331⟩ ⟨47.6102, -122.3258⟩ ≤ 380 :=
    zone_reject_lat _ _ _ 0.00548 (by norm_num [abs_of_nonneg]) (by norm_num [abs_of_nonneg]) (by norm_num [abs_of_nonneg]) (by norm_num [abs_of_nonneg])
      (by norm_num [abs_of_nonneg]) (by norm_num [abs_of_nonneg])
  rw [zoneMatches, ZONES]
  simp only [List.filter_cons, List.filter_nil, decide_eq_true_eq]
  rw [if_neg h1, if_neg h2, if_neg h3, if_neg h4, if_neg h5, if_neg h6, if_neg h7,
    if_neg h8, if_neg h9, if_neg h10, if_neg h11, if_neg h12, if_neg h13, if_neg h14]

/-- The zone matching at point A2 `(47.61554, -122.3331)` (same quantization
cell as point A) also finds exactly the Downtown zone. -/
theorem matchesA2_eq :
    zoneMatches 47.61554 (-122.3331) =
      [⟨"downtown", "Downtown", ⟨47.6097, -122.3331⟩, 650, 2800⟩] := by
  have h1 : distanceMeters ⟨47.61554, -122.3331⟩ ⟨47.6097, -122.3331⟩ ≤ 650 :=
    zone_accept_meridian _ _ _ 0.00584 rfl (by norm_num [abs_of_nonneg]) (by norm_num [abs_of_nonneg]) (by norm_num [abs_of_nonneg])
  have h2 : ¬ distanceMeters ⟨47.61554, -122.3331⟩ ⟨47.6279, -122.3372⟩ ≤ 520 :=
    zone_reject_lat _ _ _ 0.01236 (by norm_num [abs_of_nonneg]) (by norm_num [abs_of_nonneg]) (by norm_num [abs_of_nonneg]) (by norm_num [abs_of_nonneg])
      (by norm_num [abs_of_nonneg]) (by norm_num [abs_of_nonneg])
  have h3 : ¬ distanceMeters ⟨47.61554, -122.3331⟩ ⟨47.6163, -122.3456⟩ ≤ 480 :=
    zone_reject_lng _ _ _ 0.0125 (by norm_num [abs_of_nonneg]) (by norm_num [abs_of_nonneg]) (by norm_num [abs_of_nonneg]) (by norm_num [abs_of_nonneg])
      (by norm_num [abs_of_nonneg]) (by norm_num [abs_of_nonneg]) (by norm_num [abs_of_nonneg]) (by norm_num [abs_of_nonneg])
  have h4 : ¬ distanceMeters ⟨47.61554, -122.3331⟩ ⟨47.6354, -122.3570⟩ ≤ 600 :=
    zone_reject_lat _ _ _ 0.01986 (by norm_num [abs_of_nonneg]) (by norm_num [abs_of_nonneg]) (by norm_num [abs_of_nonneg]) (by norm_num [abs_of_nonneg])
      (by norm_num [abs_of_nonneg]) (by norm_num [abs_of_nonneg])
  have h5 : ¬ distanceMeters ⟨47.61554, -122.3331⟩ ⟨47.6252, -122.3212⟩ ≤ 580 :=
    zone_reject_lat _ _ _ 0.00966 (by norm_num [abs_of_nonneg]) (by norm_num [abs_of_nonneg]) (by norm_num [abs_of_nonneg]) (by norm_num [abs_of_nonneg])
      (by norm_num [abs_of_nonneg]) (by norm_num [abs_of_nonneg])
  have h6 : ¬ distanceMeters ⟨47.61554, -122.3331⟩ ⟨47.6684, -122.3846⟩ ≤ 550 :=
    zone_reject_lat _ _ _ 0.05286 (by norm_num [abs_of_nonneg]) (by norm_num [abs_of_nonneg]) (by norm_num [abs_of_nonneg]) (by norm_num [abs_of_nonneg])
      (by norm_num [abs_of_nonneg]) (by norm_num [abs_of_nonneg])
  have h7 : ¬ distanceMeters ⟨47.61554, -122.3331⟩ ⟨47.6513, -122.3507⟩ ≤ 400 :=
    zone_reject_lat _ _ _ 0.03576 (by norm_num [abs_of_nonneg]) (by norm_num [abs_of_nonneg]) (by norm_num [abs_of_nonneg]) (by norm_num [abs_of_nonneg])
      (by norm_num [abs_of_nonneg]) (by norm_num [abs_of_nonneg])
  have h8 : ¬ distanceMeters ⟨47.61554, -122.3331⟩ ⟨47.6605, -122.3140⟩ ≤ 500 :=
    zone_reject_lat _ _ _ 0.04496 (by norm_num [abs_of_nonneg]) (by norm_num [abs_of_nonneg]) (by norm_num [abs_of_nonneg]) (by norm_num [abs_of_nonneg])
      (by norm_num [abs_of_nonneg]) (by norm_num [abs_of_nonneg])
  have h9 : ¬ distanceMeters ⟨47.61554, -122.3331⟩ ⟨47.6397, -122.3992⟩ ≤ 600 :=
    zone_reject_lat _ _ _ 0.02416 (by norm_num [abs_of_nonneg]) (by norm_num [abs_of_nonneg]) (by norm_num [abs_of_nonneg]) (by norm_num [abs_of_nonneg])
      (by norm_num [abs_of_nonneg]) (by norm_num [abs_of_nonneg])
  have h10 : ¬ distanceMeters ⟨47.61554, -122.3331⟩ ⟨47.5652, -122.3868⟩ ≤ 700 :=
    zone_reject_lat _ _ _ 0.05034 (by norm_num [abs_of_nonneg]) (by norm_num [abs_of_nonneg]) (by norm_num [abs_of_nonneg]) (by norm_num [abs_of_nonneg])
      (by norm_num [abs_of_nonneg]) (by norm_num [abs_of_nonneg])
  have h11 : ¬ distanceMeters ⟨47.61554, -122.3331⟩ ⟨47.5805, -122.3102⟩ ≤ 500 :=
    zone_reject_lat _ _ _ 0.03504 (by norm_num [abs_of_nonneg]) (by norm_num [abs_of_nonneg]) (by norm_num [abs_of_nonneg]) (by norm_num [abs_of_nonneg])
      (by norm_num [abs_of_nonneg]) (by norm_num [abs_of_nonneg])
  have h12 : ¬ distanceMeters ⟨47.61554, -122.3331⟩ ⟨47.5575, -122.2845⟩ ≤ 600 :=
    zone_reject_lat _ _ _ 0.05804 (by norm_num [abs_of_nonneg]) (by norm_num [abs_of_nonneg]) (by norm_num [abs_of_nonneg]) (by norm_num [abs_of_nonneg])
      (by norm_num [abs_of_nonneg]) (by norm_num [abs_of_nonneg])
  have h13 : ¬ distanceMeters ⟨47.61554, -122.3331⟩ ⟨47.6205, -122.3493⟩ ≤ 400 :=
    zone_reject_lat _ _ _ 0.00496 (by norm_num [abs_of_nonneg]) (by norm_num [abs_of_nonneg]) (by norm_num [abs_of_nonneg]) (by norm_num [abs_of_nonneg])
      (by norm_num [abs_of_nonneg]) (by norm_num [abs_of_nonneg])
  have h14 : ¬ distanceMeters ⟨47.61554, -122.3331⟩ ⟨47.6102, -122.3258⟩ ≤ 380 :=
    zone_reject_lat _ _ _ 0.00534 (by norm_num [abs_of_nonneg]) (by norm_num [abs_of_nonneg]) (by norm_num [abs_of_nonneg]) (by norm_num [abs_of_nonneg])
      (by norm_num [abs_of_nonneg]) (by norm_num [abs_of_nonneg])
  rw [zoneMatches, ZONES]
  simp only [List.filter_cons, List.filter_nil, decide_eq_true_eq]
  rw [if_pos h1, if_neg h2, if_neg h3, if_neg h4, if_neg h5, if_neg h6, if_neg h7,
    if_neg h8, if_neg h9, if_neg h10, if_neg h11, if_neg h12, if_neg h13, if_neg h14]

theorem lcgVal_nonneg (s : ℕ) : 0 ≤ lcgVal s := by
  rw [lcgVal]
  positivity

theorem lcgVal_lt_one (s : ℕ) : lcgVal s < 1 := by
  rw [lcgVal, div_lt_one (by norm_num)]
  have h : lcgNext s < 233280 := Nat.mod_lt _ (by norm_num)
  exact_mod_cast h

theorem jitterMult_mem (lat lng : ℝ) :
    0.95 ≤ jitterMult lat lng ∧ jitterMult lat lng < 1.05 := by
  have h1 := lcgVal_nonneg (seedFromQuantizedLatLng lat lng)
  have h2 := lcgVal_lt_one (seedFromQuantizedLatLng lat lng)
  rw [jitterMult]
  constructor <;> nlinarith

/-- C4: for every point, the land valuation selects the base rate by zone count
(zero matches: default rate and generic label; one match: that zone's rate and
name; several matches: the mean rate and a composite border label), multiplies
by the seeded jitter in `[0.95, 1.05)`, and the land value is the soft-costed,
jittered rate times the base area rounded to the nearest $10,000; in
particular, for a single matched zone of rate `z.ratePerSqFt` the land value is
`round(rate * jitter * area * softCostMult / 10000) * 10000`. -/
theorem landValuation_formula (lat lng : ℝ) :
    0.95 ≤ jitterMult lat lng ∧ jitterMult lat lng < 1.05 ∧
    (zoneMatches lat lng = [] →
      (getValuationAtLatLng lat lng).ratePerSqFt = DEFAULT_RATE_PER_SQFT * jitterMult lat lng ∧
      (getValuationAtLatLng lat lng).neighborhoodLabel = "Seattle (General)") ∧
    (∀ z, zoneMatches lat lng = [z] →
      (getValuationAtLatLng lat lng).ratePerSqFt = z.ratePerSqFt * jitterMult lat lng ∧
      (getValuationAtLatLng lat lng).neighborhoodLabel = z.name ∧
      (getValuationAtLatLng lat lng).landValue =
        ((round (z.ratePerSqFt * jitterMult lat lng * NEEDLE_BASE_AREA_SQFT
          * SOFT_COST_MULT / 10000) : ℤ) : ℝ) * 10000) ∧
    (2 ≤ (zoneMatches lat lng).length →
      (getValuationAtLatLng lat lng).ratePerSqFt =
        ((zoneMatches lat lng).map Zone.ratePerSqFt).sum
          / ((zoneMatches lat lng).length : ℝ) * jitterMult lat lng ∧
      (getValuationAtLatLng lat lng).neighborhoodLabel =
        "Border Zone: " ++ String.intercalate " + " ((zoneMatches lat lng).map Zone.name)) := by
  obtain ⟨hm1, hm2⟩ := jitterMult_mem lat lng
  refine ⟨hm1, hm2, ?_, ?_, ?_⟩
  · intro h
    rw [getValuationAtLatLng]
    simp only [h, List.length_nil, jitterMult]
    norm_num
  · intro z h
    rw [getValuationAtLatLng]
    simp only [h, List.length_cons, List.length_nil, List.headI, jitterMult]
    norm_num
  · intro h
    rw [getValuationAtLatLng]
    rcases hcons : zoneMatches lat lng with _ | ⟨z1, tl⟩
    · rw [hcons] at h
      simp at h
    · rcases tl with _ | ⟨z2, tl2⟩
      · rw [hcons] at h
        simp at h
      · simp only [hcons, List.length_cons, jitterMult]
        norm_num

theorem label_at_A :
    (getValuationAtLatLng 47.61552 (-122.3331)).neighborhoodLabel = "Downtown" := by
  rw [getValuationAtLatLng]
  simp only [matchesA_eq, List.length_cons, List.length_nil, List.headI]
  norm_num

theorem label_at_B :
    (getValuationAtLatLng 47.61568 (-122.3331)).neighborhoodLabel = "Seattle (General)" := by
  rw [getValuationAtLatLng]
  simp only [matchesB_eq, List.length_nil]
  norm_num

/-- C3 (counterexample): `(47.61552, -122.3331)` and `(47.61568, -122.3331)`
quantize to the same 0.0002° grid cell (equal grid indices, hence equal seeds),
yet the valuation returns different neighborhood labels — "Downtown" versus
"Seattle (General)" — because zone matching uses the raw, unquantized
coordinates, which straddle the Downtown zone radius. -/
theorem valuation_same_cell_counterexample :
    quantIndex 47.61552 = quantIndex 47.61568 ∧
    seedFromQuantizedLatLng 47.61552 (-122.3331) =
      seedFromQuantizedLatLng 47.61568 (-122.3331) ∧
    (getValuationAtLatLng 47.61552 (-122.3331)).neighborhoodLabel ≠
      (getValuationAtLatLng 47.61568 (-122.3331)).neighborhoodLabel := by
  have hq : quantIndex 47.61552 = quantIndex 47.61568 := by
    rw [quantIndex, quantIndex, QUANTIZE_GRID, round_eq, round_eq]
    norm_num
  refine ⟨hq, ?_, ?_⟩
  · rw [seedFromQuantizedLatLng, seedFromQuantizedLatLng, hq]
  · rw [label_at_A, label_at_B]
    decide

/-- C3 (amended): the valuation is a pure function of its raw inputs, and the
quantized seed (hence the jitter multiplier) is identical for inputs in the same
0.0002° grid cell; full output equality within a cell additionally requires that
the two inputs match the same zone set, because zone matching uses the raw
coordinates. -/
theorem valuation_deterministic_per_cell (lat1 lng1 lat2 lng2 : ℝ)
    (hlat : quantIndex lat1 = quantIndex lat2)
    (hlng : quantIndex lng1 = quantIndex lng2)
    (hzone : zoneMatches lat1 lng1 = zoneMatches lat2 lng2) :
    seedFromQuantizedLatLng lat1 lng1 = seedFromQuantizedLatLng lat2 lng2 ∧
    getValuationAtLatLng lat1 lng1 = getValuationAtLatLng lat2 lng2 := by
  have hseed : seedFromQuantizedLatLng lat1 lng1 = seedFromQuantizedLatLng lat2 lng2 := by
    rw [seedFromQuantizedLatLng, seedFromQuantizedLatLng, hlat, hlng]
  refine ⟨hseed, ?_⟩
  rw [getValuationAtLatLng, getValuationAtLatLng, hzone, hseed]

/-- Closed witness for the amended C3 at the same-cell points
`(47.61552, -122.3331)` and `(47.61554, -122.3331)`, both matching exactly the
Downtown zone. -/
theorem valuation_deterministic_per_cell_witness :
    seedFromQuantizedLatLng 47.61552 (-122.3331) =
      seedFromQuantizedLatLng 47.61554 (-122.3331) ∧
    getValuationAtLatLng 47.61552 (-122.3331) = getValuationAtLatLng 47.61554 (-122.3331) :=
  valuation_deterministic_per_cell 47.61552 (-122.3331) 47.61554 (-122.3331)
    (by rw [quantIndex, quantIndex, QUANTIZE_GRID, round_eq, round_eq]; norm_num)
    rfl
    (by rw [matchesA_eq, matchesA2_eq])

/-- Closed witness for C4 at point A: exactly one zone (Downtown, $2800/sqft)
matches, and the land value is the claimed rounded formula with the seed-derived
jitter multiplier. -/
theorem landValuation_formula_witness :
    (getValuationAtLatLng 47.61552 (-122.3331)).neighborhoodLabel = "Downtown" ∧
    (getValuationAtLatLng 47.61552 (-122.3331)).ratePerSqFt =
      2800 * jitterMult 47.61552 (-122.3331) ∧
    (getValuationAtLatLng 47.61552 (-122.3331)).landValue =
      ((round ((2800 : ℝ) * jitterMult 47.61552 (-122.3331) * NEEDLE_BASE_AREA_SQFT
        * SOFT_COST_MULT / 10000) : ℤ) : ℝ) * 10000 ∧
    0.95 ≤ jitterMult 47.61552 (-122.3331) ∧ jitterMult 47.61552 (-122.3331) < 1.05 := by
  obtain ⟨ha, hb, -, hone, -⟩ := landValuation_formula 47.61552 (-122.3331)
  obtain ⟨h1, h2, h3⟩ := hone _ matchesA_eq
  exact ⟨h2, h1, h3, ha, hb⟩

theorem notInCity_474 (lng : ℝ) : ¬ isInsideCityLimits 47.4 lng := by
  simp only [isInsideCityLimits, inGeoBounds, SEATTLE_CITY_LIMITS]
  norm_num

theorem dist_474_far (lng : ℝ) :
    9600 ≤ distanceMeters ⟨47.4, lng⟩ ORIGINAL_NEEDLE_POSITION := by
  have hprod : 0 ≤ Real.cos (degToRad (LatLng.mk 47.4 lng).lat)
      * Real.cos (degToRad ORIGINAL_NEEDLE_POSITION.lat) := by
    apply mul_nonneg
    · exact (cos_degToRad_pos _ (by norm_num) (by norm_num)).le
    · exact (cos_degToRad_pos _ (by norm_num [ORIGINAL_NEEDLE_POSITION])
        (by norm_num [ORIGINAL_NEEDLE_POSITION])).le
  have h := distanceMeters_ge_lat ⟨47.4, lng⟩ ORIGINAL_NEEDLE_POSITION hprod
    (by norm_num [ORIGINAL_NEEDLE_POSITION, abs_of_nonneg])
  have habs : |ORIGINAL_NEEDLE_POSITION.lat - (LatLng.mk 47.4 lng).lat| = 0.2205 := by
    norm_num [ORIGINAL_NEEDLE_POSITION, abs_of_nonneg]
  rw [habs] at h
  have hpig : (3.141592 : ℝ) < π := Real.pi_gt_d6
  linarith

/-- Closed form of the tourism revenue outside the city limits and beyond the
9.6 km decay floor: the distance-decay factor is clamped at 0.2, so the value no
longer depends on the distance. -/
theorem tourism_outside_floor (lat lng : ℝ) (hout : ¬ isInsideCityLimits lat lng)
    (hfar : 9600 ≤ distanceMeters ⟨lat, lng⟩ ORIGINAL_NEEDLE_POSITION) :
    computeTourismRevenue lat lng =
      max 0.05 (min 0.5 ((0.2 + lcgVal (seedFromQuantizedLatLng lat lng) * (0.5 - 0.25)
        + (lcgVal (lcgNext (seedFromQuantizedLatLng lat lng)) - 0.5) * 0.2) * 0.2))
        * 1000000000 := by
  simp only [computeTourismRevenue, TOURISM_DISTANCE_DECAY_KM, TOURISM_OUTSIDE_CITY_MAX_B,
    if_neg hout]
  have hfac : max (0.2 : ℝ)
      (1 - distanceMeters ⟨lat, lng⟩ ORIGINAL_NEEDLE_POSITION / 1000 / 12) = 0.2 :=
    max_eq_left (by linarith)
  rw [hfac]

/-- C6 (counterexample): the same-cell points `(47.4, -122.35004)` and
`(47.4, -122.34996)` are both outside the city limits, have identical seeds
(hence identical jitter draws) and strictly different distances to the original
needle, yet the tourism revenue is exactly equal (both lie beyond the 9.6 km
floor of the decay factor), so the revenue does not strictly decrease with
distance even with the jitter held fixed. -/
theorem tourism_monotonic_claim_counterexample :
    distanceMeters ⟨47.4, -122.34996⟩ ORIGINAL_NEEDLE_POSITION <
      distanceMeters ⟨47.4, -122.35004⟩ ORIGINAL_NEEDLE_POSITION ∧
    ¬ isInsideCityLimits 47.4 (-122.35004) ∧
    ¬ isInsideCityLimits 47.4 (-122.34996) ∧
    seedFromQuantizedLatLng 47.4 (-122.35004) = seedFromQuantizedLatLng 47.4 (-122.34996) ∧
    computeTourismRevenue 47.4 (-122.35004) = computeTourismRevenue 47.4 (-122.34996) := by
  have hseed : seedFromQuantizedLatLng 47.4 (-122.35004)
      = seedFromQuantizedLatLng 47.4 (-122.34996) := by
    rw [seedFromQuantizedLatLng, seedFromQuantizedLatLng]
    have hq : quantIndex (-122.35004) = quantIndex (-122.34996) := by
      rw [quantIndex, quantIndex, QUANTIZE_GRID, round_eq, round_eq]
      norm_num
    rw [hq]
  refine ⟨?_, notInCity_474 _, notInCity_474 _, hseed, ?_⟩
  · apply distanceMeters_lt_of_lng ⟨47.4, -122.35004⟩ ⟨47.4, -122.34996⟩
      ORIGINAL_NEEDLE_POSITION rfl
    · norm_num [ORIGINAL_NEEDLE_POSITION, abs_of_nonneg, abs_of_nonpos]
    · norm_num [ORIGINAL_NEEDLE_POSITION, abs_of_nonneg, abs_of_nonpos]
    · exact cos_degToRad_pos _ (by norm_num) (by norm_num)
    · exact cos_degToRad_pos _ (by norm_num [ORIGINAL_NEEDLE_POSITION])
        (by norm_num [ORIGINAL_NEEDLE_POSITION])
  · rw [tourism_outside_floor 47.4 (-122.35004) (notInCity_474 _) (dist_474_far _),
      tourism_outside_floor 47.4 (-122.34996) (notInCity_474 _) (dist_474_far _), hseed]

/-- C6 (amended): for two points in the same classification (both inside or both
outside the city-limits box) with the same quantized seed, the tourism revenue
is antitone (non-strictly decreasing) in the haversine distance from the
original needle position; strictness fails because the decay factor is floored
at 0.2 beyond 9.6 km and the value is clamped to a fixed band. -/
theorem tourism_revenue_antitone (lat1 lng1 lat2 lng2 : ℝ)
    (hseed : seedFromQuantizedLatLng lat1 lng1 = seedFromQuantizedLatLng lat2 lng2)
    (hclass : isInsideCityLimits lat1 lng1 ↔ isInsideCityLimits lat2 lng2)
    (hdist : distanceMeters ⟨lat2, lng2⟩ ORIGINAL_NEEDLE_POSITION ≤
      distanceMeters ⟨lat1, lng1⟩ ORIGINAL_NEEDLE_POSITION) :
    computeTourismRevenue lat1 lng1 ≤ computeTourismRevenue lat2 lng2 := by
  have hr1 := lcgVal_nonneg (seedFromQuantizedLatLng lat2 lng2)
  have hr1' := lcgVal_lt_one (seedFromQuantizedLatLng lat2 lng2)
  have hr2 := lcgVal_nonneg (lcgNext (seedFromQuantizedLatLng lat2 lng2))
  have hr2' := lcgVal_lt_one (lcgNext (seedFromQuantizedLatLng lat2 lng2))
  simp only [computeTourismRevenue, TOURISM_DISTANCE_DECAY_KM, TOURISM_REVENUE_MIN_B,
    TOURISM_REVENUE_MAX_B, TOURISM_FLUCTUATION_B, TOURISM_OUTSIDE_CITY_MAX_B, hseed]
  set d1 := distanceMeters ⟨lat1, lng1⟩ ORIGINAL_NEEDLE_POSITION with hd1
  set d2 := distanceMeters ⟨lat2, lng2⟩ ORIGINAL_NEEDLE_POSITION with hd2
  set r1 := lcgVal (seedFromQuantizedLatLng lat2 lng2) with hr1def
  set r2 := lcgVal (lcgNext (seedFromQuantizedLatLng lat2 lng2)) with hr2def
  have hfac : max (0.2 : ℝ) (1 - d1 / 1000 / 12) ≤ max 0.2 (1 - d2 / 1000 / 12) :=
    max_le_max le_rfl (by linarith)
  have hfac0 : (0 : ℝ) ≤ max 0.2 (1 - d1 / 1000 / 12) :=
    le_trans (by norm_num) (le_max_left _ _)
  by_cases h : isInsideCityLimits lat2 lng2
  · rw [if_pos (hclass.mpr h), if_pos h]
    have hbase : (0 : ℝ) ≤ 0.6 + r1 * (1.4 - 0.6) + (r2 - 0.5) * 2 * 0.3 := by nlinarith
    have hmul : (0.6 + r1 * (1.4 - 0.6) + (r2 - 0.5) * 2 * 0.3)
        * max 0.2 (1 - d1 / 1000 / 12)
        ≤ (0.6 + r1 * (1.4 - 0.6) + (r2 - 0.5) * 2 * 0.3)
        * max 0.2 (1 - d2 / 1000 / 12) :=
      mul_le_mul_of_nonneg_left hfac hbase
    have := max_le_max (le_refl (0.3 : ℝ)) (min_le_min (le_refl (1.4 : ℝ)) hmul)
    nlinarith [this]
  · rw [if_neg (fun hc => h (hclass.mp hc)), if_neg h]
    have hbase : (0 : ℝ) ≤ 0.2 + r1 * (0.5 - 0.25) + (r2 - 0.5) * 0.2 := by nlinarith
    have hmul : (0.2 + r1 * (0.5 - 0.25) + (r2 - 0.5) * 0.2)
        * max 0.2 (1 - d1 / 1000 / 12)
        ≤ (0.2 + r1 * (0.5 - 0.25) + (r2 - 0.5) * 0.2)
        * max 0.2 (1 - d2 / 1000 / 12) :=
      mul_le_mul_of_nonneg_left hfac hbase
    have := max_le_max (le_refl (0.05 : ℝ)) (min_le_min (le_refl (0.5 : ℝ)) hmul)
    nlinarith [this]

/-- Closed witness for the amended C6 at the two far, outside-city, same-seed
points used in the counterexample. -/
theorem tourism_revenue_antitone_witness :
    computeTourismRevenue 47.4 (-122.35004) ≤ computeTourismRevenue 47.4 (-122.34996) := by
  apply tourism_revenue_antitone
  · rw [seedFromQuantizedLatLng, seedFromQuantizedLatLng]
    have hq : quantIndex (-122.35004) = quantIndex (-122.34996) := by
      rw [quantIndex, quantIndex, QUANTIZE_GRID, round_eq, round_eq]
      norm_num
    rw [hq]
  · exact iff_of_false (notInCity_474 _) (notInCity_474 _)
  · apply le_of_lt
    apply distanceMeters_lt_of_lng ⟨47.4, -122.35004⟩ ⟨47.4, -122.34996⟩
      ORIGINAL_NEEDLE_POSITION rfl
    · norm_num [ORIGINAL_NEEDLE_POSITION, abs_of_nonneg, abs_of_nonpos]
    · norm_num [ORIGINAL_NEEDLE_POSITION, abs_of_nonneg, abs_of_nonpos]
    · exact cos_degToRad_pos _ (by norm_num) (by norm_num)
    · exact cos_degToRad_pos _ (by norm_num [ORIGINAL_NEEDLE_POSITION])
        (by norm_num [ORIGINAL_NEEDLE_POSITION])

theorem distanceMeters_self (a : LatLng) : distanceMeters a a = 0 := by
  rw [distanceMeters, haversineX]
  norm_num [degToRad]

/-- C5 (amended): once the hint is locked onto placed landmark A, a pointer
position whose nearest placed landmark is B (distinct from A, strictly within
the capture radius) switches the hint to B exactly when B's distance is
strictly less than 0.75 times A's distance to the pointer, and otherwise leaves
it at A — provided the pointer is not simultaneously inside the original
sentinel's footprint with the original at least as close as B (in that case
the hint jumps to the sentinel instead; see the counterexample). -/
theorem hint_hysteresis (pos : LatLng) (list : List Placement) (A B : ℕ) (dB : ℝ)
    (pA : Placement)
    (hfind : List.find? (fun p => p.id = A) list = some pA)
    (hnear : nearestNeedle pos list = some (B, dB))
    (hBA : B ≠ A) (hB0 : B ≠ ORIGINAL_NEEDLE_ID)
    (hBR : dB < FOOTPRINT_RADIUS_M)
    (hno : ¬(distanceMeters pos ⟨SEATTLE_CENTER.lat, SEATTLE_CENTER.lng⟩ < FOOTPRINT_RADIUS_M ∧
      distanceMeters pos ⟨SEATTLE_CENTER.lat, SEATTLE_CENTER.lng⟩ ≤ dB)) :
    (hintResolve pos list (some A) = some B ↔
      dB < distanceMeters pos ⟨pA.lat, pA.lng⟩ * 0.75) ∧
    (¬ dB < distanceMeters pos ⟨pA.lat, pA.lng⟩ * 0.75 →
      hintResolve pos list (some A) = some A) := by
  have hlist : list.length ≠ 0 := by
    intro h
    rw [List.length_eq_zero] at h
    rw [h] at hnear
    simp [nearestNeedle] at hnear
  have hcond : ¬(distanceMeters pos ⟨SEATTLE_CENTER.lat, SEATTLE_CENTER.lng⟩ <
      FOOTPRINT_RADIUS_M ∧
      (B = ORIGINAL_NEEDLE_ID ∨ dB ≥ FOOTPRINT_RADIUS_M ∨
        distanceMeters pos ⟨SEATTLE_CENTER.lat, SEATTLE_CENTER.lng⟩ ≤ dB)) := by
    rintro ⟨hin, h0 | hR | hd⟩
    · exact hB0 h0
    · linarith
    · exact hno ⟨hin, hd⟩
  rw [hintResolve]
  simp only [hnear]
  rw [if_pos hlist, if_neg hcond, if_pos hBR]
  simp only [if_neg hBA, hfind]
  by_cases hlt : dB < distanceMeters pos ⟨pA.lat, pA.lng⟩ * 0.75
  · rw [if_pos hlt]
    simp [hlt]
  · rw [if_neg hlt]
    constructor
    · constructor
      · intro h
        exact absurd (Option.some.inj h).symm hBA
      · intro h
        exact absurd h hlt
    · intro h
      rfl

/-- C5 (counterexample): with the pointer exactly at the original needle,
the hint locked onto placed landmark 2, and placed landmark 1 nearest, strictly
within the capture radius and closer than 0.75 times landmark 2's distance, the
claim says the hint must switch to landmark 1 — but the code's original-needle
branch fires first and the hint becomes the sentinel id 0 instead. -/
theorem hint_hysteresis_claim_counterexample :
    nearestNeedle ⟨47.6205, -122.3493⟩
        [⟨1, 47.6215, -122.3493, 0, "", 0, 0, 0⟩, ⟨2, 47.6225, -122.3493, 0, "", 0, 0, 0⟩]
      = some (1, distanceMeters ⟨47.6205, -122.3493⟩ ⟨47.6215, -122.3493⟩) ∧
    distanceMeters ⟨47.6205, -122.3493⟩ ⟨47.6215, -122.3493⟩ < FOOTPRINT_RADIUS_M ∧
    distanceMeters ⟨47.6205, -122.3493⟩ ⟨47.6215, -122.3493⟩ <
      distanceMeters ⟨47.6205, -122.3493⟩ ⟨47.6225, -122.3493⟩ * 0.75 ∧
    List.find? (fun p : Placement => p.id = 2)
        [⟨1, 47.6215, -122.3493, 0, "", 0, 0, 0⟩, ⟨2, 47.6225, -122.3493, 0, "", 0, 0, 0⟩]
      = some ⟨2, 47.6225, -122.3493, 0, "", 0, 0, 0⟩ ∧
    hintResolve ⟨47.6205, -122.3493⟩
        [⟨1, 47.6215, -122.3493, 0, "", 0, 0, 0⟩, ⟨2, 47.6225, -122.3493, 0, "", 0, 0, 0⟩]
        (some 2) = some ORIGINAL_NEEDLE_ID ∧
    (1 : ℕ) ≠ ORIGINAL_NEEDLE_ID := by
  have hdB : distanceMeters ⟨47.6205, -122.3493⟩ ⟨47.6215, -122.3493⟩
      = 6371000 * (0.001 * π / 180) := by
    rw [distanceMeters_meridian ⟨47.6205, -122.3493⟩ ⟨47.6215, -122.3493⟩ rfl
      (by norm_num [abs_of_nonneg])]
    norm_num [abs_of_nonneg]
  have hdA : distanceMeters ⟨47.6205, -122.3493⟩ ⟨47.6225, -122.3493⟩
      = 6371000 * (0.002 * π / 180) := by
    rw [distanceMeters_meridian ⟨47.6205, -122.3493⟩ ⟨47.6225, -122.3493⟩ rfl
      (by norm_num [abs_of_nonneg])]
    norm_num [abs_of_nonneg]
  have hAB : ¬ (distanceMeters ⟨47.6205, -122.3493⟩ ⟨47.6225, -122.3493⟩ <
      distanceMeters ⟨47.6205, -122.3493⟩ ⟨47.6215, -122.3493⟩) := by
    rw [hdA, hdB]
    have := Real.pi_pos
    push_neg
    linarith
  have hnear : nearestNeedle ⟨47.6205, -122.3493⟩
      [⟨1, 47.6215, -122.3493, 0, "", 0, 0, 0⟩, ⟨2, 47.6225, -122.3493, 0, "", 0, 0, 0⟩]
      = some (1, distanceMeters ⟨47.6205, -122.3493⟩ ⟨47.6215, -122.3493⟩) := by
    simp only [nearestNeedle, List.foldl, nearestStep]
    rw [if_neg hAB]
  have hd0 : distanceMeters ⟨47.6205, -122.3493⟩ ⟨SEATTLE_CENTER.lat, SEATTLE_CENTER.lng⟩
      = 0 := by
    rw [SEATTLE_CENTER]
    exact distanceMeters_self _
  refine ⟨hnear, ?_, ?_, ?_, ?_, by norm_num [ORIGINAL_NEEDLE_ID]⟩
  · rw [hdB, FOOTPRINT_RADIUS_M]
    have := Real.pi_lt_d6
    linarith
  · rw [hdA, hdB]
    have := Real.pi_pos
    linarith
  · simp [List.find?]
  · rw [hintResolve]
    simp only [hnear, hd0, List.length_cons, List.length_nil]
    have hcond : (0 : ℝ) < FOOTPRINT_RADIUS_M ∧
        ((1 : ℕ) = ORIGINAL_NEEDLE_ID ∨
          distanceMeters ⟨47.6205, -122.3493⟩ ⟨47.6215, -122.3493⟩ ≥ FOOTPRINT_RADIUS_M ∨
          (0 : ℝ) ≤ distanceMeters ⟨47.6205, -122.3493⟩ ⟨47.6215, -122.3493⟩) :=
      ⟨by rw [FOOTPRINT_RADIUS_M]; norm_num,
        Or.inr (Or.inr (distanceMeters_nonneg _ _))⟩
    rw [if_pos (by norm_num), if_pos hcond]

/-- Closed witness for the amended C5: away from the original's footprint, with
the hint locked onto landmark 2 and landmark 1 nearest at under 0.75 times
landmark 2's distance, the hint switches to landmark 1. -/
theorem hint_hysteresis_witness :
    hintResolve ⟨47.64, -122.3493⟩
        [⟨1, 47.6405, -122.3493, 0, "", 0, 0, 0⟩, ⟨2, 47.641, -122.3493, 0, "", 0, 0, 0⟩]
        (some 2) = some 1 := by
  have hdB : distanceMeters ⟨47.64, -122.3493⟩ ⟨47.6405, -122.3493⟩
      = 6371000 * (0.0005 * π / 180) := by
    rw [distanceMeters_meridian ⟨47.64, -122.3493⟩ ⟨47.6405, -122.3493⟩ rfl
      (by norm_num [abs_of_nonneg])]
    norm_num [abs_of_nonneg]
  have hdA : distanceMeters ⟨47.64, -122.3493⟩ ⟨47.641, -122.3493⟩
      = 6371000 * (0.001 * π / 180) := by
    rw [distanceMeters_meridian ⟨47.64, -122.3493⟩ ⟨47.641, -122.3493⟩ rfl
      (by norm_num [abs_of_nonneg])]
    norm_num [abs_of_nonneg]
  have hd0 : distanceMeters ⟨47.64, -122.3493⟩ ⟨SEATTLE_CENTER.lat, SEATTLE_CENTER.lng⟩
      = 6371000 * (0.0195 * π / 180) := by
    rw [SEATTLE_CENTER]
    rw [distanceMeters_meridian ⟨47.64, -122.3493⟩ ⟨47.6205, -122.3493⟩ rfl
      (by norm_num [abs_of_nonpos])]
    norm_num [abs_of_nonpos]
  have hAB : ¬ (distanceMeters ⟨47.64, -122.3493⟩ ⟨47.641, -122.3493⟩ <
      distanceMeters ⟨47.64, -122.3493⟩ ⟨47.6405, -122.3493⟩) := by
    rw [hdA, hdB]
    have := Real.pi_pos
    push_neg
    linarith
  have hnear : nearestNeedle ⟨47.64, -122.3493⟩
      [⟨1, 47.6405, -122.3493, 0, "", 0, 0, 0⟩, ⟨2, 47.641, -122.3493, 0, "", 0, 0, 0⟩]
      = some (1, distanceMeters ⟨47.64, -122.3493⟩ ⟨47.6405, -122.3493⟩) := by
    simp only [nearestNeedle, List.foldl, nearestStep]
    rw [if_neg hAB]
  have hfind : List.find? (fun p : Placement => p.id = 2)
      [⟨1, 47.6405, -122.3493, 0, "", 0, 0, 0⟩, ⟨2, 47.641, -122.3493, 0, "", 0, 0, 0⟩]
      = some ⟨2, 47.641, -122.3493, 0, "", 0, 0, 0⟩ := by
    simp [List.find?]
  have hBR : distanceMeters ⟨47.64, -122.3493⟩ ⟨47.6405, -122.3493⟩ < FOOTPRINT_RADIUS_M := by
    rw [hdB, FOOTPRINT_RADIUS_M]
    have := Real.pi_lt_d6
    linarith
  have hno : ¬(distanceMeters ⟨47.64, -122.3493⟩ ⟨SEATTLE_CENTER.lat, SEATTLE_CENTER.lng⟩
      < FOOTPRINT_RADIUS_M ∧
      distanceMeters ⟨47.64, -122.3493⟩ ⟨SEATTLE_CENTER.lat, SEATTLE_CENTER.lng⟩
      ≤ distanceMeters ⟨47.64, -122.3493⟩ ⟨47.6405, -122.3493⟩) := by
    rintro ⟨h1, -⟩
    rw [hd0, FOOTPRINT_RADIUS_M] at h1
    have := Real.pi_gt_d6
    linarith
  have h := hint_hysteresis ⟨47.64, -122.3493⟩
    [⟨1, 47.6405, -122.3493, 0, "", 0, 0, 0⟩, ⟨2, 47.641, -122.3493, 0, "", 0, 0, 0⟩]
    2 1 (distanceMeters ⟨47.64, -122.3493⟩ ⟨47.6405, -122.3493⟩)
    ⟨2, 47.641, -122.3493, 0, "", 0, 0, 0⟩
    hfind hnear (by norm_num) (by norm_num [ORIGINAL_NEEDLE_ID]) hBR hno
  apply h.1.mpr
  show distanceMeters ⟨47.64, -122.3493⟩ ⟨47.6405, -122.3493⟩ <
    distanceMeters ⟨47.64, -122.3493⟩ ⟨47.641, -122.3493⟩ * 0.75
  rw [hdA, hdB]
  have := Real.pi_pos
  linarith

/-- C7: the erase-all action empties the placed-landmark list — leaving exactly
one needle on screen, the immutable sentinel original — and resets the camera
pose to the documented defaults: center `(47.6205, -122.3493)`, heading 230,
tilt 67, range 900 meters. -/
theorem clearNeedles_resets (env : SessionEnv) (s : MapState)
    (he : eventEnabled Event.clearNeedles s) :
    (stepEv env Event.clearNeedles s).placements = [] ∧
    totalNeedles (stepEv env Event.clearNeedles s) = 1 ∧
    (stepEv env Event.clearNeedles s).camera = ⟨⟨47.6205, -122.3493⟩, 230, 67, 900⟩ := by
  refine ⟨rfl, rfl, ?_⟩
  show (⟨SEATTLE_CENTER, DEFAULT_HEADING, DEFAULT_TILT, DEFAULT_RANGE⟩ : CameraPose) = _
  rw [SEATTLE_CENTER, DEFAULT_HEADING, DEFAULT_TILT, DEFAULT_RANGE]

/-- Closed witness for C7 from a session state holding one placed landmark. -/
theorem clearNeedles_resets_witness :
    (stepEv ⟨[]⟩ Event.clearNeedles
      { initState with placements := [⟨1, 0, 0, 0, "", 0, 0, 0⟩] }).placements = [] ∧
    totalNeedles (stepEv ⟨[]⟩ Event.clearNeedles
      { initState with placements := [⟨1, 0, 0, 0, "", 0, 0, 0⟩] }) = 1 ∧
    (stepEv ⟨[]⟩ Event.clearNeedles
        { initState with placements := [⟨1, 0, 0, 0, "", 0, 0, 0⟩] }).camera =
      ⟨⟨47.6205, -122.3493⟩, 230, 67, 900⟩ :=
  clearNeedles_resets ⟨[]⟩ _ (by simp [eventEnabled])

theorem clickMenuUpdate_fields (s : MapState) (p : LatLng) (pathId : Option ℕ) :
    (clickMenuUpdate s p pathId).placements = s.placements ∧
    (clickMenuUpdate s p pathId).movingNeedleId = s.movingNeedleId ∧
    (clickMenuUpdate s p pathId).isPlacing = s.isPlacing ∧
    (clickMenuUpdate s p pathId).visitMode = s.visitMode ∧
    (clickMenuUpdate s p pathId).nextPlacementId = s.nextPlacementId := by
  unfold clickMenuUpdate
  rcases pathId with _ | i <;> simp only [] <;> split <;> try split
  all_goals refine ⟨rfl, rfl, rfl, rfl, rfl⟩

theorem pointerMoveStep_fields (s : MapState) (pos : Option LatLng)
    (overMenu onSurface : Bool) :
    (pointerMoveStep s pos overMenu onSurface).placements = s.placements ∧
    (pointerMoveStep s pos overMenu onSurface).movingNeedleId = s.movingNeedleId ∧
    (pointerMoveStep s pos overMenu onSurface).isPlacing = s.isPlacing ∧
    (pointerMoveStep s pos overMenu onSurface).visitMode = s.visitMode ∧
    (pointerMoveStep s pos overMenu onSurface).nextPlacementId = s.nextPlacementId := by
  unfold pointerMoveStep
  split_ifs <;> refine ⟨rfl, rfl, rfl, rfl, rfl⟩

theorem visitStep_fields (s : MapState) (id : ℕ) :
    (visitStep s id).placements = s.placements ∧
    (visitStep s id).movingNeedleId = s.movingNeedleId ∧
    (visitStep s id).isPlacing = s.isPlacing ∧
    (visitStep s id).nextPlacementId = s.nextPlacementId := by
  unfold visitStep
  split <;> try split
  all_goals refine ⟨rfl, rfl, rfl, rfl⟩

theorem clickStep_movingNeedleId (env : SessionEnv) (s : MapState) (p : LatLng)
    (elev : Option ℝ) (pathId : Option ℕ) :
    (clickStep env s p elev pathId).movingNeedleId = none := by
  unfold clickStep
  cases h : s.movingNeedleId with
  | some mid => rfl
  | none =>
    simp only []
    split_ifs <;>
      first
        | rfl
        | exact h
        | rw [(clickMenuUpdate_fields s p pathId).2.1, h]

theorem reach_after_place :
    Reachable ⟨[]⟩ (stepEv ⟨[]⟩ (Event.click ⟨0, 0⟩ none none) initState) ∧
    (stepEv ⟨[]⟩ (Event.click ⟨0, 0⟩ none none) initState).isPlacing = false ∧
    (stepEv ⟨[]⟩ (Event.click ⟨0, 0⟩ none none) initState).movingNeedleId = none ∧
    (stepEv ⟨[]⟩ (Event.click ⟨0, 0⟩ none none) initState).visitMode = false ∧
    (stepEv ⟨[]⟩ (Event.click ⟨0, 0⟩ none none) initState).placements
      = [newPlacementAt initState ⟨0, 0⟩] := by
  refine ⟨Reachable.step _ Reachable.init trivial, ?_, ?_, ?_, ?_⟩ <;>
    simp [stepEv, clickStep, initState]

theorem reach_after_menu_click :
    Reachable ⟨[]⟩ (stepEv ⟨[]⟩ (Event.click ⟨0, 0⟩ none (some 1))
      (stepEv ⟨[]⟩ (Event.click ⟨0, 0⟩ none none) initState)) ∧
    (stepEv ⟨[]⟩ (Event.click ⟨0, 0⟩ none (some 1))
      (stepEv ⟨[]⟩ (Event.click ⟨0, 0⟩ none none) initState)).hoveredNeedleId = some 1 ∧
    eventEnabled (Event.moveNeedle 1)
      (stepEv ⟨[]⟩ (Event.click ⟨0, 0⟩ none (some 1))
        (stepEv ⟨[]⟩ (Event.click ⟨0, 0⟩ none none) initState)) := by
  obtain ⟨hr, hp, hm, hv, hpl⟩ := reach_after_place
  have hreach := Reachable.step (Event.click ⟨0, 0⟩ none (some 1)) hr trivial
  set s1 := stepEv ⟨[]⟩ (Event.click ⟨0, 0⟩ none none) initState with hs1
  have hfind : (List.find? (fun q => q.id = 1) s1.placements).isSome = true := by
    rw [hpl]
    simp [List.find?, newPlacementAt, initState]
  have hstep : stepEv ⟨[]⟩ (Event.click ⟨0, 0⟩ none (some 1)) s1
      = { s1 with hintNeedleId := none, hoveredNeedleId := some 1 } := by
    show clickStep ⟨[]⟩ s1 ⟨0, 0⟩ none (some 1)
      = { s1 with hintNeedleId := none, hoveredNeedleId := some 1 }
    unfold clickStep
    rw [hm]
    simp only [hp, hv]
    unfold clickMenuUpdate
    simp [hfind, hp, hm, hv]
  refine ⟨hreach, ?_, ?_⟩
  · rw [hstep]
  · rw [hstep]
    refine ⟨⟨rfl, hp, hm, hv, Or.inr hfind⟩, by norm_num [ORIGINAL_NEEDLE_ID]⟩

/-- C9 (counterexample): the interaction flags are not mutually exclusive — a
reachable state (place a landmark, click it to open its menu, choose Move)
has both the placing flag set and a moving landmark id: `onMoveNeedle` sets
`isPlacing` and `movingNeedleId` together, so Placing and Moving are
simultaneously active. -/
theorem interactionMode_exclusive_counterexample :
    Reachable ⟨[]⟩ (stepEv ⟨[]⟩ (Event.moveNeedle 1)
      (stepEv ⟨[]⟩ (Event.click ⟨0, 0⟩ none (some 1))
        (stepEv ⟨[]⟩ (Event.click ⟨0, 0⟩ none none) initState))) ∧
    (stepEv ⟨[]⟩ (Event.moveNeedle 1) (stepEv ⟨[]⟩ (Event.click ⟨0, 0⟩ none (some 1))
      (stepEv ⟨[]⟩ (Event.click ⟨0, 0⟩ none none) initState))).isPlacing = true ∧
    (stepEv ⟨[]⟩ (Event.moveNeedle 1) (stepEv ⟨[]⟩ (Event.click ⟨0, 0⟩ none (some 1))
      (stepEv ⟨[]⟩ (Event.click ⟨0, 0⟩ none none) initState))).movingNeedleId = some 1 := by
  obtain ⟨hr, hhov, hen⟩ := reach_after_menu_click
  exact ⟨Reachable.step (Event.moveNeedle 1) hr hen, rfl, rfl⟩

/-- C9 (amended): the four interaction modes are not represented by mutually
exclusive flags.  What holds at every reachable state is: whenever a move is in
progress (`movingNeedleId` set), the placing flag is also set (the ghost
preview is shared between Placing and Moving) and visit mode is off — Moving
excludes Visiting but always co-occurs with the Placing flag; separately,
pressing Place Needle during a visit makes the placing flag and visit mode
co-occur, so Placing and Visiting are not exclusive either. -/
theorem moving_mode_invariant (env : SessionEnv) (s : MapState)
    (h : Reachable env s) :
    ∀ mid, s.movingNeedleId = some mid → s.isPlacing = true ∧ s.visitMode = false := by
  induction h with
  | init =>
    intro mid hmid
    simp [initState] at hmid
  | @step s e hr he ih =>
    intro mid hmid
    cases e with
    | pointerMove pos overMenu onSurface =>
      obtain ⟨-, h1, h2, h3, -⟩ := pointerMoveStep_fields s pos overMenu onSurface
      rw [stepEv] at hmid ⊢
      rw [h1] at hmid
      rw [h2, h3]
      exact ih mid hmid
    | pointerLeave =>
      exact ih mid hmid
    | click p elev pathId =>
      rw [stepEv, clickStep_movingNeedleId] at hmid
      exact absurd hmid (by simp)
    | removeNeedle id =>
      obtain ⟨⟨-, -, hmove, -, -⟩, -, -⟩ := he
      rw [stepEv] at hmid
      have : s.movingNeedleId = some mid := hmid
      rw [hmove] at this
      exact absurd this (by simp)
    | moveNeedle id =>
      obtain ⟨⟨-, -, -, hvisit, -⟩, -⟩ := he
      exact ⟨rfl, hvisit⟩
    | visitNeedle id =>
      obtain ⟨-, -, hmove, -, -⟩ := he
      rw [stepEv] at hmid
      rw [(visitStep_fields s id).2.1, hmove] at hmid
      exact absurd hmid (by simp)
    | exitVisit =>
      rw [stepEv] at hmid
      have := ih mid hmid
      exact ⟨this.1, rfl⟩
    | clearNeedles =>
      rw [stepEv] at hmid
      exact absurd hmid (by simp [clearStep])
    | placeAnother =>
      obtain ⟨-, hmove⟩ := he
      rw [stepEv] at hmid
      have : s.movingNeedleId = some mid := hmid
      rw [hmove] at this
      exact absurd this (by simp)
    | enableSound =>
      exact ih mid hmid
    | disableSound =>
      exact ih mid hmid

/-- Closed witness for the amended C9 at the reachable moving state of the
counterexample trace. -/
theorem moving_mode_invariant_witness :
    (stepEv ⟨[]⟩ (Event.moveNeedle 1) (stepEv ⟨[]⟩ (Event.click ⟨0, 0⟩ none (some 1))
      (stepEv ⟨[]⟩ (Event.click ⟨0, 0⟩ none none) initState))).isPlacing = true ∧
    (stepEv ⟨[]⟩ (Event.moveNeedle 1) (stepEv ⟨[]⟩ (Event.click ⟨0, 0⟩ none (some 1))
      (stepEv ⟨[]⟩ (Event.click ⟨0, 0⟩ none none) initState))).visitMode = false :=
  moving_mode_invariant ⟨[]⟩ _
    (Reachable.step (Event.moveNeedle 1) reach_after_menu_click.1 reach_after_menu_click.2.2)
    1 rfl

theorem place_branch_inv {s : MapState} {p : LatLng}
    (ih1 : 1 ≤ s.nextPlacementId)
    (ih2 : ∀ q ∈ s.placements, q.id < s.nextPlacementId)
    (ih3 : (s.placements.map Placement.id).Nodup) :
    1 ≤ s.nextPlacementId + 1 ∧
    (∀ q ∈ s.placements ++ [newPlacementAt s p], q.id < s.nextPlacementId + 1) ∧
    ((s.placements ++ [newPlacementAt s p]).map Placement.id).Nodup := by
  refine ⟨by omega, ?_, ?_⟩
  · intro q hq
    rw [List.mem_append] at hq
    rcases hq with hq | hq
    · exact lt_trans (ih2 q hq) (by omega)
    · rw [List.mem_singleton] at hq
      rw [hq]
      show s.nextPlacementId < s.nextPlacementId + 1
      omega
  · rw [List.map_append]
    apply List.Nodup.append ih3 (List.nodup_singleton _)
    intro a ha hb
    rw [List.mem_map] at ha
    obtain ⟨q, hq, hqa⟩ := ha
    rw [List.mem_singleton] at hb
    have hlt := ih2 q hq
    rw [hb] at hqa
    rw [hqa] at hlt
    exact lt_irrefl _ hlt

theorem placements_id_invariant (env : SessionEnv) (s : MapState) (h : Reachable env s) :
    1 ≤ s.nextPlacementId ∧
    (∀ q ∈ s.placements, q.id < s.nextPlacementId) ∧
    (s.placements.map Placement.id).Nodup := by
  induction h with
  | init => simp [initState]
  | @step s e hr he ih =>
    obtain ⟨ih1, ih2, ih3⟩ := ih
    cases e with
    | pointerMove pos overMenu onSurface =>
      obtain ⟨h1, -, -, -, h2⟩ := pointerMoveStep_fields s pos overMenu onSurface
      rw [stepEv, h1, h2]
      exact ⟨ih1, ih2, ih3⟩
    | pointerLeave => exact ⟨ih1, ih2, ih3⟩
    | click p elev pathId =>
      rw [stepEv]
      unfold clickStep
      cases hm : s.movingNeedleId with
      | some mid =>
        simp only []
        have hids : (s.placements.map fun q =>
            if q.id = mid then
              { q with
                lat := p.lat
                lng := p.lng
                altitude := 0
                neighborhoodLabel := (getValuationAtLatLng p.lat p.lng).neighborhoodLabel
                landValue := (getValuationAtLatLng p.lat p.lng).landValue
                ratePerSqFt := (getValuationAtLatLng p.lat p.lng).ratePerSqFt
                tourismRevenue := computeTourismRevenue p.lat p.lng }
            else q).map Placement.id = s.placements.map Placement.id := by
          rw [List.map_map]
          apply List.map_congr_left
          intro q hq
          by_cases hid : q.id = mid <;> simp [hid]
        refine ⟨ih1, ?_, ?_⟩
        · intro q hq
          rw [List.mem_map] at hq
          obtain ⟨r, hr, hrq⟩ := hq
          have : q.id = r.id := by
            rw [← hrq]
            by_cases hid : r.id = mid <;> simp [hid]
          rw [this]
          exact ih2 r hr
        · rw [hids]
          exact ih3
      | none =>
        simp only []
        split_ifs <;>
          first
            | exact ⟨ih1, ih2, ih3⟩
            | exact place_branch_inv ih1 ih2 ih3
            | (obtain ⟨c1, -, -, -, c2⟩ := clickMenuUpdate_fields s p pathId
               rw [c1, c2]
               exact ⟨ih1, ih2, ih3⟩)
    | removeNeedle id =>
      refine ⟨ih1, ?_, ?_⟩
      · intro q hq
        exact ih2 q (List.mem_of_mem_filter hq)
      · exact List.Nodup.sublist (List.Sublist.map Placement.id (List.filter_sublist _)) ih3
    | moveNeedle id => exact ⟨ih1, ih2, ih3⟩
    | visitNeedle id =>
      obtain ⟨h1, -, -, h2⟩ := visitStep_fields s id
      rw [stepEv, h1, h2]
      exact ⟨ih1, ih2, ih3⟩
    | exitVisit => exact ⟨ih1, ih2, ih3⟩
    | clearNeedles =>
      refine ⟨ih1, ?_, ?_⟩ <;> simp [stepEv, clearStep]
    | placeAnother => exact ⟨ih1, ih2, ih3⟩
    | enableSound => exact ⟨ih1, ih2, ih3⟩
    | disableSound => exact ⟨ih1, ih2, ih3⟩

theorem filter_ne_id_length {l : List Placement}
    (hnd : (l.map Placement.id).Nodup) (id : ℕ) :
    l.length - 1 ≤ (l.filter (fun q => q.id ≠ id)).length := by
  induction l with
  | nil => simp
  | cons q t ih =>
    rw [List.map_cons, List.nodup_cons] at hnd
    obtain ⟨hq, ht⟩ := hnd
    by_cases h : q.id = id
    · have hall : t.filter (fun r => r.id ≠ id) = t := by
        rw [List.filter_eq_self]
        intro r hr
        have : r.id ≠ q.id := by
          intro he
          exact hq (by rw [← he]; exact List.mem_map_of_mem Placement.id hr)
        simp only [ne_eq, decide_eq_true_eq]
        rw [h] at this
        exact this
      rw [List.filter_cons_of_neg (by simp [h]), hall]
      simp
    · rw [List.filter_cons_of_pos (by simp [h])]
      have := ih ht
      simp only [List.length_cons]
      omega

/-- C10: the Remove action is guarded by `placements.length > 1`, so an
enabled individual removal always leaves at least one placed landmark; at any
reachable state, the only enabled event that can empty a nonempty placed set is
the erase-all action; and a removal whose result would be empty automatically
re-enters placing mode. -/
theorem removal_never_empties (env : SessionEnv) (s : MapState)
    (h : Reachable env s) :
    (∀ id, eventEnabled (Event.removeNeedle id) s →
      1 < s.placements.length ∧ (stepEv env (Event.removeNeedle id) s).placements ≠ []) ∧
    (∀ e, eventEnabled e s → s.placements ≠ [] →
      (stepEv env e s).placements = [] → e = Event.clearNeedles) ∧
    (∀ id, s.placements.filter (fun q => q.id ≠ id) = [] →
      (stepEv env (Event.removeNeedle id) s).isPlacing = true) := by
  obtain ⟨-, -, hnd⟩ := placements_id_invariant env s h
  have hremove : ∀ id, 1 < s.placements.length →
      (stepEv env (Event.removeNeedle id) s).placements ≠ [] := by
    intro id hlen
    have hge := filter_ne_id_length hnd id
    intro hempty
    have : (s.placements.filter (fun q => q.id ≠ id)).length = 0 := by
      show (stepEv env (Event.removeNeedle id) s).placements.length = 0
      rw [hempty]
      rfl
    omega
  refine ⟨?_, ?_, ?_⟩
  · intro id he
    exact ⟨he.2.2, hremove id he.2.2⟩
  · intro e he hne hempty
    cases e with
    | pointerMove pos overMenu onSurface =>
      rw [stepEv, (pointerMoveStep_fields s pos overMenu onSurface).1] at hempty
      exact absurd hempty hne
    | pointerLeave => exact absurd hempty hne
    | click p elev pathId =>
      rw [stepEv] at hempty
      unfold clickStep at hempty
      cases hm : s.movingNeedleId with
      | some mid =>
        rw [hm] at hempty
        simp only [List.map_eq_nil_iff] at hempty
        exact absurd hempty hne
      | none =>
        rw [hm] at hempty
        simp only [] at hempty
        split_ifs at hempty <;>
          first
            | exact absurd hempty (by simp)
            | (rw [(clickMenuUpdate_fields s p pathId).1] at hempty
               exact absurd hempty hne)
            | exact absurd hempty hne
    | removeNeedle id =>
      exact absurd hempty (hremove id he.2.2)
    | moveNeedle id => exact absurd hempty hne
    | visitNeedle id =>
      rw [stepEv, (visitStep_fields s id).1] at hempty
      exact absurd hempty hne
    | exitVisit => exact absurd hempty hne
    | clearNeedles => rfl
    | placeAnother => exact absurd hempty hne
    | enableSound => exact absurd hempty hne
    | disableSound => exact absurd hempty hne
  · intro id hfil
    show (if (s.placements.filter (fun q => q.id ≠ id)).length = 0 then true
      else s.isPlacing) = true
    rw [hfil]
    simp

theorem remove_ready_facts :
    Reachable ⟨[]⟩ (stepEv ⟨[]⟩ (Event.click ⟨1, 1⟩ none (some 1))
      (stepEv ⟨[]⟩ (Event.click ⟨1, 1⟩ none none)
        (stepEv ⟨[]⟩ Event.placeAnother
          (stepEv ⟨[]⟩ (Event.click ⟨0, 0⟩ none none) initState)))) ∧
    eventEnabled (Event.removeNeedle 1)
      (stepEv ⟨[]⟩ (Event.click ⟨1, 1⟩ none (some 1))
        (stepEv ⟨[]⟩ (Event.click ⟨1, 1⟩ none none)
          (stepEv ⟨[]⟩ Event.placeAnother
            (stepEv ⟨[]⟩ (Event.click ⟨0, 0⟩ none none) initState)))) := by
  obtain ⟨hr1, hp1, hm1, hv1, hpl1⟩ := reach_after_place
  set s1 := stepEv ⟨[]⟩ (Event.click ⟨0, 0⟩ none none) initState with hs1
  have hen2 : eventEnabled Event.placeAnother s1 := by
    constructor
    · rw [hpl1]
      simp
    · exact hm1
  have hr2 := Reachable.step Event.placeAnother hr1 hen2
  set s2 := stepEv ⟨[]⟩ Event.placeAnother s1 with hs2
  have hp2 : s2.isPlacing = true := rfl
  have hm2 : s2.movingNeedleId = none := hm1
  have hv2 : s2.visitMode = false := hv1
  have hpl2 : s2.placements = s1.placements := rfl
  have hr3 := Reachable.step (Event.click ⟨1, 1⟩ none none) hr2 trivial
  set s3 := stepEv ⟨[]⟩ (Event.click ⟨1, 1⟩ none none) s2 with hs3
  have h3 : s3.isPlacing = false ∧ s3.movingNeedleId = none ∧ s3.visitMode = false ∧
      s3.placements = s2.placements ++ [newPlacementAt s2 ⟨1, 1⟩] := by
    rw [hs3]
    show (clickStep ⟨[]⟩ s2 ⟨1, 1⟩ none none).isPlacing = false ∧
      (clickStep ⟨[]⟩ s2 ⟨1, 1⟩ none none).movingNeedleId = none ∧
      (clickStep ⟨[]⟩ s2 ⟨1, 1⟩ none none).visitMode = false ∧
      (clickStep ⟨[]⟩ s2 ⟨1, 1⟩ none none).placements
        = s2.placements ++ [newPlacementAt s2 ⟨1, 1⟩]
    unfold clickStep
    simp only [hm2, hp2]
    exact ⟨rfl, hm2, hv2, rfl⟩
  have hr4 := Reachable.step (Event.click ⟨1, 1⟩ none (some 1)) hr3 trivial
  set s4 := stepEv ⟨[]⟩ (Event.click ⟨1, 1⟩ none (some 1)) s3 with hs4
  have hfind4 : (List.find? (fun q => q.id = 1) s3.placements).isSome = true := by
    rw [h3.2.2.2, hpl2, hpl1]
    simp [List.find?, newPlacementAt, initState]
  have hstep4 : s4 = { s3 with hintNeedleId := none, hoveredNeedleId := some 1 } := by
    rw [hs4]
    show clickStep ⟨[]⟩ s3 ⟨1, 1⟩ none (some 1)
      = { s3 with hintNeedleId := none, hoveredNeedleId := some 1 }
    unfold clickStep
    rw [h3.2.1]
    simp only [h3.1, h3.2.2.1]
    unfold clickMenuUpdate
    simp [hfind4, h3.1, h3.2.1, h3.2.2.1]
  have hlen4 : 1 < s4.placements.length := by
    rw [hstep4]
    show 1 < s3.placements.length
    rw [h3.2.2.2, hpl2, hpl1]
    simp
  refine ⟨hr4, ⟨?_, ?_, ?_, ?_, ?_⟩, by norm_num [ORIGINAL_NEEDLE_ID], hlen4⟩
  · rw [hstep4]
  · rw [hstep4]
    exact h3.1
  · rw [hstep4]
    exact h3.2.1
  · rw [hstep4]
    exact h3.2.2.1
  · rw [hstep4]
    exact Or.inr hfind4

/-- Closed witness for C10: at a reachable state with two placed landmarks and
the Remove menu open for landmark 1, removal keeps the placed set nonempty; and
the removal transition itself re-enters placing mode when the result would be
empty. -/
theorem removal_never_empties_witness :
    1 < (stepEv ⟨[]⟩ (Event.click ⟨1, 1⟩ none (some 1))
      (stepEv ⟨[]⟩ (Event.click ⟨1, 1⟩ none none)
        (stepEv ⟨[]⟩ Event.placeAnother
          (stepEv ⟨[]⟩ (Event.click ⟨0, 0⟩ none none) initState)))).placements.length ∧
    (stepEv ⟨[]⟩ (Event.removeNeedle 1)
      (stepEv ⟨[]⟩ (Event.click ⟨1, 1⟩ none (some 1))
        (stepEv ⟨[]⟩ (Event.click ⟨1, 1⟩ none none)
          (stepEv ⟨[]⟩ Event.placeAnother
            (stepEv ⟨[]⟩ (Event.click ⟨0, 0⟩ none none) initState))))).placements ≠ [] ∧
    (stepEv ⟨[]⟩ (Event.removeNeedle 5) initState).isPlacing = true := by
  obtain ⟨hr, hen⟩ := remove_ready_facts
  have h := removal_never_empties ⟨[]⟩ _ hr
  exact ⟨(h.1 1 hen).1, (h.1 1 hen).2,
    (removal_never_empties ⟨[]⟩ initState Reachable.init).2.2 5 rfl⟩

/-- C8: for every confirming placement click at a valid pointer position, a new
landmark is appended regardless of the elevation lookup's outcome (`none`
models failure/timeout/null): the resulting placement list, next id and mode
flags are independent of the elevation, which influences only the recorded
drop sound; with no elevation available, the water/land call degrades to the
neighborhood-polygon/bounding-box guess. -/
theorem placement_succeeds_despite_elevation (env : SessionEnv) (s : MapState)
    (p : LatLng) (hplacing : s.isPlacing = true) (hmoving : s.movingNeedleId = none)
    (elev elev' : Option ℝ) (pathId pathId' : Option ℕ) :
    (stepEv env (Event.click p elev pathId) s).placements
      = s.placements ++ [newPlacementAt s p] ∧
    (stepEv env (Event.click p elev pathId) s).placements
      = (stepEv env (Event.click p elev' pathId') s).placements ∧
    (stepEv env (Event.click p elev pathId) s).isPlacing = false ∧
    (stepEv env (Event.click p elev pathId) s)
      = { stepEv env (Event.click p elev' pathId') s with
          lastDropSound :=
            if s.soundEnabled then some (dropSoundFor env.polys p.lat p.lng elev)
            else s.lastDropSound } ∧
    (isWaterPlacement env.polys p.lat p.lng none = true ↔
      (¬ isInSeattleNeighborhood env.polys p.lat p.lng ∧ isInWaterBounds p.lat p.lng)) := by
  have hstep : ∀ e : Option ℝ, ∀ pid : Option ℕ,
      stepEv env (Event.click p e pid) s
        = { s with
            placements := s.placements ++ [newPlacementAt s p]
            nextPlacementId := s.nextPlacementId + 1
            isPlacing := false
            lastDropSound :=
              if s.soundEnabled then some (dropSoundFor env.polys p.lat p.lng e)
              else s.lastDropSound } := by
    intro e pid
    show clickStep env s p e pid = _
    unfold clickStep
    rw [hmoving]
    simp only [hplacing]
    simp
  refine ⟨by rw [hstep elev pathId], by rw [hstep elev pathId, hstep elev' pathId'],
    by rw [hstep elev pathId], by rw [hstep elev pathId, hstep elev' pathId'], ?_⟩
  unfold isWaterPlacement
  split_ifs with h1 h2
  · simp [h1]
  · simp [h1, h2]
  · simp [h1, h2]

/-- Closed witness for C8: placing at the origin with a failed (`none`) versus a
successful (`some 5`) elevation lookup appends the same landmark either way. -/
theorem placement_succeeds_despite_elevation_witness :
    (stepEv ⟨[]⟩ (Event.click ⟨0, 0⟩ none none) initState).placements
      = initState.placements ++ [newPlacementAt initState ⟨0, 0⟩] ∧
    (stepEv ⟨[]⟩ (Event.click ⟨0, 0⟩ none none) initState).placements
      = (stepEv ⟨[]⟩ (Event.click ⟨0, 0⟩ (some 5) none) initState).placements := by
  have h := placement_succeeds_despite_elevation ⟨[]⟩ initState ⟨0, 0⟩ rfl rfl
    none (some 5) none none
  exact ⟨h.1, h.2.1⟩
